import Mathlib

/-!
Verification of the IMAP/SMTP email tool (`tools/imap/imap_client.py`,
`tools/imap/cli.py`, `tools/config.py`) against its natural-language
specification.  The Python code is shallowly embedded: pure computations
become Lean functions, Python exceptions become `Except PyExc`, the
process-global connection slot becomes explicit state passing, and the
behavior of external collaborators (the IMAP server, the host runtime's
codec registry and RFC-5322 parsers) is supplied as data carried in the
input structures or in an oracle record.
-/

set_option maxHeartbeats 1000000

/-- Byte strings are modelled as lists of byte values. -/
abbrev Bytes := List Nat

/-- Python exceptions that the embedded code can raise.  `runtimeError`
models `RuntimeError`, `valueError` models `ValueError` (failed `int()`
conversion, message-not-found), `lookupError` models the `LookupError`
raised by `bytes.decode` on an unregistered charset, and `opError` models
any other exception escaping an underlying library call. -/
inductive PyExc where
  | runtimeError (msg : String)
  | valueError (msg : String)
  | lookupError (msg : String)
  | opError (msg : String)
deriving DecidableEq

/-- Python `str(e)` on an exception: its message. -/
def PyExc.text : PyExc → String
  | .runtimeError m => m
  | .valueError m => m
  | .lookupError m => m
  | .opError m => m

/-- Python truthiness of an optional string (`None` and `""` are falsy). -/
def optTruthy : Option String → Bool
  | some s => s != ""
  | none => false

/-- Whether `needle` occurs as a contiguous run inside `hay`. -/
def hasSubList (needle : List Char) : List Char → Bool
  | [] => needle.isEmpty
  | c :: rest => needle.isPrefixOf (c :: rest) || hasSubList needle rest

/-- Python `needle in hay` substring test (`'attachment' in
content_disposition`, `'sent' in folder_lower`, `'draft' in
folder_lower`). -/
def pyIn (needle hay : String) : Bool :=
  hasSubList needle.toList hay.toList

/-- Python `str.upper()` on an ASCII character (the keyword comparisons of
the search DSL involve only ASCII). -/
def pyUpperChar (c : Char) : Char :=
  if 'a' ≤ c && c ≤ 'z' then Char.ofNat (c.toNat - 32) else c

/-- Python `str.lower()` on an ASCII character. -/
def pyLowerChar (c : Char) : Char :=
  if 'A' ≤ c && c ≤ 'Z' then Char.ofNat (c.toNat + 32) else c

/-- Python `str.upper()` (modelled on ASCII). -/
def pyUpper (s : String) : String := String.mk (s.toList.map pyUpperChar)

/-- Python `str.lower()` (modelled on ASCII). -/
def pyLower (s : String) : String := String.mk (s.toList.map pyLowerChar)

/-- Python `s.startswith(pre)`. -/
def pyStartsWith (s pre : String) : Bool :=
  pre.toList.isPrefixOf s.toList

/-- Python `s[n:]` (drop the first `n` characters). -/
def pyDrop (s : String) (n : Nat) : String := String.mk (s.toList.drop n)

/-- The characters removed by Python `str.strip()` with no argument. -/
def pyWsChars : List Char := [' ', '\t', '\n', '\r', '\x0b', '\x0c']

/-- Python `str.strip(chars)`: remove any of the given characters from both
ends. -/
def pyStripChars (s : String) (cs : List Char) : String :=
  let l := s.toList.dropWhile (fun c => cs.contains c)
  String.mk ((l.reverse.dropWhile (fun c => cs.contains c)).reverse)

/-- Python `str.strip()` (whitespace on both ends). -/
def pyStrip (s : String) : String := pyStripChars s pyWsChars

/-- The value of a nonempty all-digit character list. -/
def digitsVal (l : List Char) : Option Nat :=
  if l.isEmpty then none
  else if l.all Char.isDigit then
    some (l.foldl (fun a c => a * 10 + (c.toNat - 48)) 0)
  else none

/-- Python `int(s)` restricted to ASCII decimal literals: surrounding
whitespace stripped, an optional sign, then one or more digits; `none`
models the `ValueError` raised on anything else.  (CPython additionally
accepts underscore digit separators and non-ASCII decimal digits; the ids
this program converts come from command lines and JSON and are ASCII.) -/
def pyIntParse (s : String) : Option Int :=
  match (pyStrip s).toList with
  | '-' :: rest => (digitsVal rest).map (fun n => -(n : Int))
  | '+' :: rest => (digitsVal rest).map (fun n => (n : Int))
  | t => (digitsVal t).map (fun n => (n : Int))

/-- Python `text[:maxB] if len(text) > maxB else text` (character-count
truncation, as in `imap_client.py` lines 386-396 and 407-415). -/
def strTrunc (maxB : Nat) (t : String) : String :=
  if t.toList.length > maxB then String.mk (t.toList.take maxB) else t

/-- An RFC-5322 address as returned by `email.utils.parseaddr` /
`getaddresses`: a (display-name, address) pair of strings, already
defaulted to `""` (the `x or ""` in the source maps `""` to itself). -/
structure Addr where
  name : String
  email : String
deriving DecidableEq

/-- One chunk of the list returned by `email.header.decode_header`: either
a plain `str` chunk, or a `bytes` chunk paired with the outcome of
`bytes.decode(charset, errors="ignore")`.  The decode outcome is carried
as data because the codec registry belongs to the host runtime (an
external collaborator): `Except.error m` models the `LookupError` that
`bytes.decode` raises when the declared charset is not registered, which
`errors="ignore"` does not suppress. -/
inductive HeaderChunk where
  | strChunk (s : String)
  | bytesChunk (decodeRes : Except String String)

/-- The `''.join(part[0].decode(part[1] or 'utf-8', errors='ignore') ...)`
comprehension applied to the chunks of `decode_header` (`imap_client.py`
lines 329-333 for the subject, 354-358 for a filename): chunks are decoded
left to right and concatenated; the first failing decode raises. -/
def decodeChunksE : List HeaderChunk → Except PyExc String
  | [] => Except.ok ""
  | HeaderChunk.strChunk s :: rest => do
      let t ← decodeChunksE rest
      pure (s ++ t)
  | HeaderChunk.bytesChunk r :: rest => do
      let s ← match r with
        | Except.ok s => Except.ok s
        | Except.error m => Except.error (PyExc.lookupError m)
      let t ← decodeChunksE rest
      pure (s ++ t)

/-- One element of `msg.walk()` in a multipart message, with collaborator
outputs carried as data: `filename` is `part.get_filename()`,
`filenameChunks` is `decode_header(filename)`, `payload` is
`part.get_payload(decode=True)` (`none` models `None`), and
`payloadTextIgnore` is `payload.decode('utf-8', errors='ignore')`, which
is total because the utf-8 codec is registered and `errors='ignore'`
suppresses byte errors. -/
structure MimePart where
  contentType : String
  contentDisposition : String
  filename : Option String
  filenameChunks : List HeaderChunk
  payload : Option Bytes
  payloadTextIgnore : String

/-- One entry of the normalized record's `body.attachments` list
(`imap_client.py` lines 371-378).  By construction it has no payload
field: the source appends only filename, content type, size and the
truncation flag. -/
structure AttachmentMeta where
  filename : String
  contentType : String
  size : Nat
  truncated : Bool
deriving DecidableEq

/-- The mutable accumulator of the body/attachment extraction:
`body_text`, `body_html`, `attachments` (`imap_client.py` lines 336-338). -/
structure BodyAcc where
  text : String
  html : String
  attachments : List AttachmentMeta
deriving DecidableEq

/-- The `body` object of the normalized record. -/
structure EmailBody where
  text : String
  html : String
  attachments : List AttachmentMeta
deriving DecidableEq

/-- The fixed header subset of the normalized record
(`imap_client.py` lines 434-440). -/
structure FixedHeaders where
  messageId : String
  references : String
  inReplyTo : String
  date : String
  contentType : String
deriving DecidableEq

/-- The normalized email record produced by `normalize_email`
(`imap_client.py` lines 420-442). -/
structure NormalizedEmail where
  id : String
  mailbox : Option String
  fromAddr : Addr
  toAddrs : List Addr
  ccAddrs : List Addr
  bccAddrs : List Addr
  subject : String
  timestamp : String
  body : EmailBody
  headers : FixedHeaders
  flags : List String
deriving DecidableEq

/-- The body payload of a parsed message: either a single-part message
(with its sole payload, that payload's lossy utf-8 decoding, and the
message's content type), or a multipart message with its `walk()`
sequence. -/
inductive MsgContent where
  | single (payload : Option Bytes) (payloadTextIgnore : String)
      (contentType : String)
  | multi (parts : List MimePart)

/-- A parsed `email.message.Message` as `normalize_email` consumes it.
The outputs of the external parsing collaborators are carried as data:
`headerItems` is `msg.items()`, `fromPair` is
`email.utils.parseaddr(msg.get('From', ''))`, the address lists are
`email.utils.getaddresses(msg.get_all(..., []))`, `dateIso` is the
outcome of `email.utils.parsedate_tz` followed by
`datetime(*t[:6]).isoformat()` (`none` when `parsedate_tz` returned
`None`, `some (Except.error m)` when the `datetime` constructor raised),
and `subjectChunks` is `decode_header(msg.get('Subject', ''))`. -/
structure Msg where
  headerItems : List (String × String)
  fromPair : Addr
  toAddrs : List Addr
  ccAddrs : List Addr
  bccAddrs : List Addr
  dateHeader : String
  dateIso : Option (Except String String)
  subjectHeader : String
  subjectChunks : List HeaderChunk
  content : MsgContent

/-- Lookup in the lower-cased header dict built by the loop at
`imap_client.py` lines 291-293, then `.get(k, '')`: later occurrences of
the same (case-folded) header name overwrite earlier ones. -/
def headerMapGet (items : List (String × String)) (k : String) : String :=
  items.foldl (fun acc kv => if pyLower kv.1 = k then kv.2 else acc) ""

/-- The date step of `normalize_email` (`imap_client.py` lines 314-323,
428): guarded by `if date_str:`, wrapped in `try/except`, and defaulted
to `""` by `timestamp or ""`. -/
def timestampOf (dateHeader : String) (dateIso : Option (Except String String)) :
    String :=
  if dateHeader != "" then
    match dateIso with
    | some (Except.ok s) => s ++ "Z"
    | _ => ""
  else ""

/-- The loop body of the multipart walk (`imap_client.py` lines 341-398):
skip `multipart/*` containers; treat a part with an `attachment`
disposition or a filename as an attachment (decoding the filename, then
recording metadata with byte-count truncation at `maxA`, never the
payload itself); otherwise assign `text/plain` / `text/html` payloads to
the body fields with character-count truncation at `maxB`; other leaf
parts contribute nothing. -/
def processPartE (maxB maxA : Nat) (st : BodyAcc) (p : MimePart) :
    Except PyExc BodyAcc :=
  if pyStartsWith p.contentType "multipart/" then Except.ok st
  else if pyIn "attachment" p.contentDisposition || optTruthy p.filename then
    if optTruthy p.filename then do
      let fname ← decodeChunksE p.filenameChunks
      match p.payload with
      | some pl =>
        if pl.length != 0 then
          if pl.length > maxA then
            Except.ok { st with
              attachments := st.attachments ++
                [⟨fname, p.contentType, maxA, true⟩] }
          else
            Except.ok { st with
              attachments := st.attachments ++
                [⟨fname, p.contentType, pl.length, false⟩] }
        else Except.ok st
      | none => Except.ok st
    else Except.ok st
  else
    match p.payload with
    | some pl =>
      if pl.length != 0 then
        if p.contentType = "text/plain" then
          Except.ok { st with text := strTrunc maxB p.payloadTextIgnore }
        else if p.contentType = "text/html" then
          Except.ok { st with html := strTrunc maxB p.payloadTextIgnore }
        else Except.ok st
      else Except.ok st
    | none => Except.ok st

/-- The full multipart walk: the loop `for part in msg.walk()` folded over
the part sequence, starting from empty body fields. -/
def bodyWalkE (maxB maxA : Nat) (parts : List MimePart) : Except PyExc BodyAcc :=
  parts.foldlM (processPartE maxB maxA) ⟨"", "", []⟩

/-- The single-part branch (`imap_client.py` lines 399-417): decode the
sole payload with lossy utf-8, route it to `html` when the content type is
`text/html` and to `text` otherwise, truncating at `maxB` characters; a
falsy payload leaves both fields empty. -/
def singleBody (maxB : Nat) (payload : Option Bytes)
    (payloadTextIgnore contentType : String) : BodyAcc :=
  match payload with
  | some pl =>
    if pl.length != 0 then
      if contentType = "text/html" then ⟨"", strTrunc maxB payloadTextIgnore, []⟩
      else ⟨strTrunc maxB payloadTextIgnore, "", []⟩
    else ⟨"", "", []⟩
  | none => ⟨"", "", []⟩

/-- `normalize_email(msg, uid, max_body_bytes, max_attachment_bytes)`
(`imap_client.py` lines 283-444).  Steps that the source wraps in
`try/except` (date) or that cannot raise (header map, address fields,
lossy utf-8 body decode) are total; the subject decode (lines 326-333) and
the filename decode inside the walk (lines 354-358) are NOT wrapped in the
source, so their `LookupError` propagates out of the whole function. -/
def normalizeEmailE (msg : Msg) (uid : Int) (maxB maxA : Nat) :
    Except PyExc NormalizedEmail :=
  match (if msg.subjectHeader != "" then decodeChunksE msg.subjectChunks
         else Except.ok "") with
  | Except.error e => Except.error e
  | Except.ok subject =>
  match (match msg.content with
         | MsgContent.multi parts => bodyWalkE maxB maxA parts
         | MsgContent.single pl text ctype =>
           Except.ok (singleBody maxB pl text ctype)) with
  | Except.error e => Except.error e
  | Except.ok acc =>
  Except.ok {
    id := toString uid
    mailbox := none
    fromAddr := msg.fromPair
    toAddrs := msg.toAddrs
    ccAddrs := msg.ccAddrs
    bccAddrs := msg.bccAddrs
    subject := subject
    timestamp := timestampOf msg.dateHeader msg.dateIso
    body := ⟨acc.text, acc.html, acc.attachments⟩
    headers := ⟨headerMapGet msg.headerItems "message-id",
                headerMapGet msg.headerItems "references",
                headerMapGet msg.headerItems "in-reply-to",
                headerMapGet msg.headerItems "date",
                headerMapGet msg.headerItems "content-type"⟩
    flags := [] }

/-- A mailbox row returned by `IMAPClient.list_folders`, as `list_mailboxes`
renders it (`imap_client.py` lines 97-112).  Folder names and delimiters
arriving as byte strings are decoded with `errors='replace'`, which is
total, so the decoded strings are carried directly. -/
structure Folder where
  flags : List String
  delimiter : String
  name : String
deriving DecidableEq

/-- The dictionary returned by `IMAPClient.select_folder`: `EXISTS` is
always present; `RECENT`, `UNSEEN`, `UIDVALIDITY` may be absent and are
read with `.get(key, 0)`. -/
structure SelectData where
  existsN : Nat
  recent : Option Nat
  unseen : Option Nat
  uidvalidity : Option Nat
deriving DecidableEq

/-- The result dictionary of `IMAPConnection.select_mailbox`
(`imap_client.py` lines 122-128). -/
structure SelectRes where
  mailbox : String
  existsN : Nat
  recent : Nat
  unseen : Nat
  uidvalidity : Nat
deriving DecidableEq

/-- The server oracle: the outcome of each underlying `IMAPClient` call on
the live connection.  `Except.error m` models the library call raising an
exception whose `str` is `m`.  For `fetchR`, `Except.ok none` models a
response dictionary that does not contain the requested uid, and
`Except.ok (some msg)` carries the message as `email.message_from_bytes`
parses it. -/
structure Server where
  foldersR : Except String (List Folder)
  selectR : String → Except String SelectData
  searchR : List String → Except String (List Int)
  fetchR : Int → Except String (Option Msg)
  flagR : Except String Unit
  expungeR : Except String Unit
  copyR : Except String Unit
  appendR : Except String (Option Nat)

/-- A live `IMAPClient` handle: a connected socket whose behavior is the
server oracle. -/
structure Client where
  srv : Server

/-- The `IMAPConnection` object (`imap_client.py` lines 31-38). -/
structure Conn where
  client : Option Client
  server : Option String
  username : Option String
  currentMailbox : Option String

/-- A freshly constructed `IMAPConnection` (`__init__`, lines 34-38). -/
def connNew : Conn := ⟨none, none, none, none⟩

/-- The `RuntimeError("Not connected to IMAP server")` raised by every
stateful operation when `self.client` is `None`. -/
def notConnectedExc : PyExc := PyExc.runtimeError "Not connected to IMAP server"

/-- Network side effects performed against the server, recorded in order.
An effect is emitted exactly when the corresponding library call is
issued, whether it succeeds or raises. -/
inductive Effect where
  | connect
  | logout
  | listOp
  | selectOp (mailbox : String)
  | searchOp (key : List String)
  | fetchOp (uid : Int)
  | setFlagsOp (flag : String) (uids : List Int)
  | removeFlagsOp (flag : String) (uids : List Int)
  | expungeOp
  | copyOp (mailbox : String) (uids : List Int)
  | appendOp (mailbox : String)
deriving DecidableEq

/-- `IMAPConnection.disconnect` (lines 79-90): nothing happens without a
client; otherwise a best-effort logout (its failure is swallowed, so the
oracle is not consulted) and all session fields are cleared. -/
def Conn.disconnectT (c : Conn) : Conn × List Effect :=
  match c.client with
  | none => (c, [])
  | some _ => (⟨none, none, none, none⟩, [Effect.logout])

/-- `IMAPConnection.list_mailboxes` (lines 92-112). -/
def Conn.listMailboxesT (c : Conn) : Except PyExc (List Folder) × List Effect :=
  match c.client with
  | none => (Except.error notConnectedExc, [])
  | some cl =>
    match cl.srv.foldersR with
    | Except.ok fs => (Except.ok fs, [Effect.listOp])
    | Except.error m => (Except.error (PyExc.opError m), [Effect.listOp])

/-- `IMAPConnection.select_mailbox` (lines 114-128): `current_mailbox` is
updated only after `select_folder` returns. -/
def Conn.selectMailboxT (c : Conn) (mailbox : String) :
    Except PyExc SelectRes × Conn × List Effect :=
  match c.client with
  | none => (Except.error notConnectedExc, c, [])
  | some cl =>
    match cl.srv.selectR mailbox with
    | Except.ok d =>
      (Except.ok ⟨mailbox, d.existsN, d.recent.getD 0, d.unseen.getD 0,
         d.uidvalidity.getD 0⟩,
       { c with currentMailbox := some mailbox }, [Effect.selectOp mailbox])
    | Except.error m =>
      (Except.error (PyExc.opError m), c, [Effect.selectOp mailbox])

/-- The quote characters stripped from `FROM` / `SUBJECT` arguments:
`.strip('"\'')`. -/
def quoteChars : List Char := ['"', Char.ofNat 39]

/-- The criteria dispatch of `IMAPConnection.search` (lines 135-150):
`ALL`, `UNSEEN`, `FROM <addr>` and `SUBJECT <text>` (keyword matched on
`criteria.upper()`, the argument taken from the original string with
whitespace then surrounding quotes stripped), with everything else
falling back to `ALL`. -/
def parseSearchCriteria (criteria : String) : List String :=
  if pyUpper criteria = "ALL" then ["ALL"]
  else if pyUpper criteria = "UNSEEN" then ["UNSEEN"]
  else if pyStartsWith (pyUpper criteria) "FROM " then
    ["FROM", pyStripChars (pyStrip (pyDrop criteria 5)) quoteChars]
  else if pyStartsWith (pyUpper criteria) "SUBJECT " then
    ["SUBJECT", pyStripChars (pyStrip (pyDrop criteria 8)) quoteChars]
  else ["ALL"]

/-- `IMAPConnection.search` (lines 130-152). -/
def Conn.searchT (c : Conn) (criteria : String) :
    Except PyExc (List Int) × List Effect :=
  match c.client with
  | none => (Except.error notConnectedExc, [])
  | some cl =>
    let key := parseSearchCriteria criteria
    match cl.srv.searchR key with
    | Except.ok uids => (Except.ok uids, [Effect.searchOp key])
    | Except.error m => (Except.error (PyExc.opError m), [Effect.searchOp key])

/-- `IMAPConnection.fetch_email` (lines 154-174): fetch the raw message,
raise `ValueError` when the uid is absent from the response, otherwise
parse and normalize. -/
def Conn.fetchEmailT (c : Conn) (uid : Int) (maxB maxA : Nat) :
    Except PyExc NormalizedEmail × List Effect :=
  match c.client with
  | none => (Except.error notConnectedExc, [])
  | some cl =>
    match cl.srv.fetchR uid with
    | Except.error m => (Except.error (PyExc.opError m), [Effect.fetchOp uid])
    | Except.ok none =>
      (Except.error (PyExc.valueError
        ("Message " ++ toString uid ++ " not found")), [Effect.fetchOp uid])
    | Except.ok (some msg) =>
      (normalizeEmailE msg uid maxB maxA, [Effect.fetchOp uid])

/-- `IMAPConnection.mark_read` (lines 176-181). -/
def Conn.markReadT (c : Conn) (uids : List Int) :
    Except PyExc Unit × List Effect :=
  match c.client with
  | none => (Except.error notConnectedExc, [])
  | some cl =>
    match cl.srv.flagR with
    | Except.ok _ => (Except.ok (), [Effect.setFlagsOp "\\Seen" uids])
    | Except.error m =>
      (Except.error (PyExc.opError m), [Effect.setFlagsOp "\\Seen" uids])

/-- `IMAPConnection.mark_unread` (lines 183-188). -/
def Conn.markUnreadT (c : Conn) (uids : List Int) :
    Except PyExc Unit × List Effect :=
  match c.client with
  | none => (Except.error notConnectedExc, [])
  | some cl =>
    match cl.srv.flagR with
    | Except.ok _ => (Except.ok (), [Effect.removeFlagsOp "\\Seen" uids])
    | Except.error m =>
      (Except.error (PyExc.opError m), [Effect.removeFlagsOp "\\Seen" uids])

/-- `IMAPConnection.delete` (lines 190-196): set the deleted flag, then
expunge; a failure of the first call prevents the second. -/
def Conn.deleteT (c : Conn) (uids : List Int) :
    Except PyExc Unit × List Effect :=
  match c.client with
  | none => (Except.error notConnectedExc, [])
  | some cl =>
    match cl.srv.flagR with
    | Except.error m =>
      (Except.error (PyExc.opError m), [Effect.setFlagsOp "\\Deleted" uids])
    | Except.ok _ =>
      match cl.srv.expungeR with
      | Except.ok _ =>
        (Except.ok (), [Effect.setFlagsOp "\\Deleted" uids, Effect.expungeOp])
      | Except.error m =>
        (Except.error (PyExc.opError m),
         [Effect.setFlagsOp "\\Deleted" uids, Effect.expungeOp])

/-- `IMAPConnection.move` (lines 198-205): copy to the target mailbox,
set the deleted flag, expunge, in that order, each failure stopping the
sequence. -/
def Conn.moveT (c : Conn) (uids : List Int) (target : String) :
    Except PyExc Unit × List Effect :=
  match c.client with
  | none => (Except.error notConnectedExc, [])
  | some cl =>
    match cl.srv.copyR with
    | Except.error m =>
      (Except.error (PyExc.opError m), [Effect.copyOp target uids])
    | Except.ok _ =>
      match cl.srv.flagR with
      | Except.error m =>
        (Except.error (PyExc.opError m),
         [Effect.copyOp target uids, Effect.setFlagsOp "\\Deleted" uids])
      | Except.ok _ =>
        match cl.srv.expungeR with
        | Except.ok _ =>
          (Except.ok (),
           [Effect.copyOp target uids, Effect.setFlagsOp "\\Deleted" uids,
            Effect.expungeOp])
        | Except.error m =>
          (Except.error (PyExc.opError m),
           [Effect.copyOp target uids, Effect.setFlagsOp "\\Deleted" uids,
            Effect.expungeOp])

/-- `IMAPConnection.append_to_mailbox` (lines 207-230): raw append with a
default `['\\Seen']` flag list; an error is logged and re-raised. -/
def Conn.appendT (c : Conn) (mailbox : String) (msgBytes : Bytes)
    (flags : Option (List String)) : Except PyExc (Option Nat) × List Effect :=
  match c.client with
  | none => (Except.error notConnectedExc, [])
  | some cl =>
    match cl.srv.appendR with
    | Except.ok uid => (Except.ok uid, [Effect.appendOp mailbox])
    | Except.error m =>
      (Except.error (PyExc.opError m), [Effect.appendOp mailbox])

/-- The candidate list of canonical Sent folder names
(`imap_client.py` lines 241-248). -/
def sentFolderNames : List String :=
  ["Sent", "Sent Items", "Gesendet", "[Gmail]/Sent Mail", "Sent Messages",
   "OUTBOX"]

/-- First pass of `find_sent_folder` (lines 259-262): the first candidate,
in candidate order, that occurs verbatim among the folder names. -/
def sentStageExact (names : List String) : Option String :=
  sentFolderNames.find? (fun s => names.contains s)

/-- Second pass (lines 264-269): the first candidate, in candidate order,
whose lower-casing occurs among the lower-cased folder names; the first
folder name realizing it is returned in its original spelling.
Lower-casing models `str.lower` on ASCII. -/
def sentStageCaseless (names : List String) : Option String :=
  let lowers := names.map pyLower
  match sentFolderNames.find? (fun s => lowers.contains (pyLower s)) with
  | some s =>
    ((names.zip lowers).find? (fun p => p.2 = pyLower s)).map (fun p => p.1)
  | none => none

/-- Third pass (lines 271-275): the first folder whose lower-cased name
contains "sent" but not "draft". -/
def sentStageHeuristic (names : List String) : Option String :=
  names.find? (fun n => pyIn "sent" (pyLower n) && !(pyIn "draft" (pyLower n)))

/-- The folder-name resolution of `find_sent_folder`: the three passes
tried in order. -/
def findSentIn (names : List String) : Option String :=
  match sentStageExact names with
  | some s => some s
  | none =>
    match sentStageCaseless names with
    | some s => some s
    | none => sentStageHeuristic names

/-- `IMAPConnection.find_sent_folder` (lines 232-280): requires a
connection; lists folders, decodes their names, and resolves through the
three passes; a failure of the listing call itself yields `None` rather
than raising. -/
def Conn.findSentFolderT (c : Conn) : Except PyExc (Option String) × List Effect :=
  match c.client with
  | none => (Except.error notConnectedExc, [])
  | some cl =>
    match cl.srv.foldersR with
    | Except.ok fs => (Except.ok (findSentIn (fs.map Folder.name)), [Effect.listOp])
    | Except.error _ => (Except.ok none, [Effect.listOp])

/-- An account profile (`tools/config.py`, `AccountProfile`): server and
credential fields default to `None`, ports and TLS flags to
993/587/true/true. -/
structure Profile where
  imapServer : Option String
  smtpServer : Option String
  username : Option String
  password : Option String
  imapPort : Nat
  smtpPort : Nat
  imapSsl : Bool
  smtpTls : Bool
deriving DecidableEq

/-- The ambient process environment consulted by `_auto_connect`
(`cli.py` lines 41-112): the profile store (`ProfileManager.get_profile`
and `.get_default()`) and the `IMAP_USERNAME` / `IMAP_PASSWORD`
environment variables. -/
structure Env where
  profiles : String → Option Profile
  defaultProfile : Option Profile
  imapUsername : Option String
  imapPassword : Option String

/-- The flat argument map a CLI command receives.  Missing keys are
`none`; `args.get(k, d)` becomes `getD`. -/
structure Args where
  account : Option String
  server : Option String
  username : Option String
  password : Option String
  port : Option Nat
  useSsl : Option Bool
  mailbox : Option String
  criteria : Option String
  messageId : Option String
  messageIds : Option (List String)
  targetMailbox : Option String
  sandbox : Bool
  maxBodyBytes : Option Nat
  maxAttachmentBytes : Option Nat

/-- The connection oracle: the outcome of `IMAPConnection.connect` for the
credentials the command resolved (each command attempts at most one
connect).  `Except.ok srv` is a successful login yielding a live client
whose behavior is `srv`; `Except.error m` is the exception (after the
standard-login / PLAIN fallback of `imap_client.py` lines 45-69) whose
`str` is `m`. -/
structure Oracle where
  connectR : Except String Server

/-- The process-global connection slot (`imap_client.py` lines 447-459,
`get_connection` / `set_connection`). -/
structure CliState where
  slot : Option Conn

/-- Python truthiness of the `message_ids` argument (`None` and the empty
list are falsy). -/
def idsTruthy : Option (List String) → Bool
  | some l => !l.isEmpty
  | none => false

/-- Result of the credential-resolution part of `_auto_connect`:
`earlyNone` is the `return None, False` taken when a named account has no
stored profile (`cli.py` line 66); otherwise the `server`, `username`,
`password`, `port`, `use_ssl` variables as they stand after the
environment-variable and default-profile fallbacks. -/
inductive CredRes where
  | earlyNone
  | vals (server username password : Option String) (port : Nat) (ssl : Bool)

/-- Steps 3-4 of `_auto_connect` (`cli.py` lines 82-101): fill a falsy
username/password from the environment variables, then, when server,
username and password are all still falsy, take every field from the
default profile when one exists. -/
def credsWithFallbacks (env : Env) (server username password : Option String)
    (port : Nat) (ssl : Bool) : CredRes :=
  let username := if optTruthy username then username else env.imapUsername
  let password := if optTruthy password then password else env.imapPassword
  if !optTruthy server && !optTruthy username && !optTruthy password then
    match env.defaultProfile with
    | some p => CredRes.vals p.imapServer p.username p.password p.imapPort p.imapSsl
    | none => CredRes.vals server username password port ssl
  else CredRes.vals server username password port ssl

/-- Steps 1-4 of `_auto_connect` (`cli.py` lines 50-101): a truthy
`account` argument loads that profile (and a missing profile returns
`None, False` immediately); otherwise the direct arguments are used; in
both cases the environment-variable and default-profile fallbacks apply. -/
def resolveCreds (env : Env) (a : Args) : CredRes :=
  if optTruthy a.account then
    match env.profiles (a.account.getD "") with
    | some p =>
      credsWithFallbacks env p.imapServer p.username p.password p.imapPort p.imapSsl
    | none => CredRes.earlyNone
  else
    credsWithFallbacks env a.server a.username a.password (a.port.getD 993)
      (a.useSsl.getD true)

/-- `_auto_connect` (`cli.py` lines 41-112).  An existing global
connection is reused with `auto_connected = False`.  Otherwise, when the
resolved server, username and password are all truthy, a connect is
attempted (the socket being opened is network I/O, so the `connect`
effect is emitted even when the attempt fails): success stores the new
connection in the global slot and returns it with `auto_connected =
True`; failure raises `RuntimeError("Auto-connect failed: ...")` and the
slot stays empty.  With incomplete credentials no attempt is made. -/
def autoConnectT (o : Oracle) (env : Env) (a : Args) (st : CliState) :
    Except PyExc (Option Conn × Bool) × CliState × List Effect :=
  match st.slot with
  | some c => (Except.ok (some c, false), st, [])
  | none =>
    match resolveCreds env a with
    | CredRes.earlyNone => (Except.ok (none, false), st, [])
    | CredRes.vals server username password _port _ssl =>
      if optTruthy server && optTruthy username && optTruthy password then
        match o.connectR with
        | Except.ok srv =>
          let conn : Conn := ⟨some ⟨srv⟩, server, username, none⟩
          (Except.ok (some conn, true), ⟨some conn⟩, [Effect.connect])
        | Except.error m =>
          (Except.error (PyExc.runtimeError ("Auto-connect failed: " ++ m)), st,
           [Effect.connect])
      else (Except.ok (none, false), st, [])

/-- A command's `result` payload: one constructor per result dictionary
shape appearing in `cli.py`.  The `would*` / `sandboxMode` booleans carry
the literal `True` values placed in the sandbox dictionaries. -/
inductive RVal where
  | mailboxes (l : List Folder)
  | selected (s : SelectRes)
  | searchHits (criteria : String) (ids : List Int) (count : Nat)
  | emailData (e : NormalizedEmail)
  | markedRead (ids : List Int) (marked : Bool)
  | markedUnread (ids : List Int) (marked : Bool)
  | deletedIds (ids : List Int) (deleted : Bool)
  | movedIds (ids : List Int) (target : String) (moved : Bool)
  | sandboxMarkRead (ids : List String) (wouldMarkRead : Bool) (sandboxMode : Bool)
  | sandboxMarkUnread (ids : List String) (wouldMarkUnread : Bool) (sandboxMode : Bool)
  | sandboxDelete (ids : List String) (wouldDelete : Bool) (sandboxMode : Bool)
  | sandboxMove (ids : List String) (target : String) (wouldMove : Bool)
      (sandboxMode : Bool)
deriving DecidableEq

/-- The JSON value a command returns: `{"status": "success", "result": v}`,
`{"status": "sandbox", "result": v}`, or `{"error": msg}`. -/
inductive Resp where
  | success (v : RVal)
  | sandboxed (v : RVal)
  | failure (msg : String)
deriving DecidableEq

/-- Whether a response is the `{"error": ...}` shape. -/
def Resp.isErr : Resp → Bool
  | .failure _ => true
  | _ => false

/-- The not-connected message every auto-connect command returns when no
session exists and no credentials were resolved. -/
def notConnectedCliMsg : String :=
  "Not connected to IMAP server. Provide --server, --username, --password to auto-connect, or call 'connect' first."

/-- The `except` ladder at the bottom of each command: `RuntimeError`
is returned as its bare message; `ValueError` (only in `mark-read`,
`mark-unread`, `delete`, `move`, where `hasValueClause` is true) as
`"Invalid message ID: " + str(e)`; any other exception with the
command's contextual prefix. -/
def renderExc (pfx : String) (hasValueClause : Bool) (e : PyExc) : Resp :=
  match e with
  | PyExc.runtimeError m => Resp.failure m
  | PyExc.valueError m =>
    if hasValueClause then Resp.failure ("Invalid message ID: " ++ m)
    else Resp.failure (pfx ++ m)
  | e => Resp.failure (pfx ++ e.text)

/-- The shared body of every auto-connect command (`cli.py`; e.g. lines
194-231 for `list-mailboxes`): run `_auto_connect`; fail with the
not-connected message when it yields no connection; run the command's
inner operation; on success disconnect-and-clear when the session was
auto-connected (except `select-mailbox`, which passes
`teardownOnSuccess = false`); on an inner exception disconnect-and-clear
when auto-connected, then render the exception through the command's
`except` ladder. -/
def withAutoConn (o : Oracle) (env : Env) (a : Args) (st : CliState)
    (pfx : String) (hasValueClause : Bool) (teardownOnSuccess : Bool)
    (inner : Conn → Except PyExc RVal × Conn × List Effect) :
    Resp × CliState × List Effect :=
  match autoConnectT o env a st with
  | (Except.error e, st1, tr1) => (renderExc pfx hasValueClause e, st1, tr1)
  | (Except.ok (none, _), st1, tr1) =>
    (Resp.failure notConnectedCliMsg, st1, tr1)
  | (Except.ok (some conn, auto), _, tr1) =>
    match inner conn with
    | (Except.ok v, conn2, tr2) =>
      if auto && teardownOnSuccess then
        (Resp.success v, ⟨none⟩, tr1 ++ tr2 ++ conn2.disconnectT.2)
      else (Resp.success v, ⟨some conn2⟩, tr1 ++ tr2)
    | (Except.error e, conn2, tr2) =>
      if auto then
        (renderExc pfx hasValueClause e, ⟨none⟩, tr1 ++ tr2 ++ conn2.disconnectT.2)
      else (renderExc pfx hasValueClause e, ⟨some conn2⟩, tr1 ++ tr2)

/-- The `if not conn.current_mailbox: conn.select_mailbox('INBOX')` step
run by `search`, `fetch`, `mark-read`, `mark-unread`, `delete` and
`move`. -/
def ensureInbox (c : Conn) : Except PyExc Unit × Conn × List Effect :=
  if optTruthy c.currentMailbox then (Except.ok (), c, [])
  else
    match c.selectMailboxT "INBOX" with
    | (Except.ok _, c1, tr) => (Except.ok (), c1, tr)
    | (Except.error e, c1, tr) => (Except.error e, c1, tr)

/-- `[int(uid) for uid in message_ids]`: ids are converted left to right;
the first unparseable one raises `ValueError`. -/
def parseIdsE : List String → Except PyExc (List Int)
  | [] => Except.ok []
  | s :: rest =>
    match pyIntParse s with
    | none =>
      Except.error (PyExc.valueError
        ("invalid literal for int() with base 10: " ++ s))
    | some n =>
      match parseIdsE rest with
      | Except.ok l => Except.ok (n :: l)
      | Except.error e => Except.error e


/-- The inner try-block of `list-mailboxes` (`cli.py` lines 201-208). -/
def innerList : Conn → Except PyExc RVal × Conn × List Effect :=
  fun conn =>
    match conn.listMailboxesT with
    | (Except.ok fs, tr) => (Except.ok (RVal.mailboxes fs), conn, tr)
    | (Except.error e, tr) => (Except.error e, conn, tr)

/-- The inner try-block of `select-mailbox` (`cli.py` lines 250-257). -/
def innerSelect (mb : String) : Conn → Except PyExc RVal × Conn × List Effect :=
  fun conn =>
    match conn.selectMailboxT mb with
    | (Except.ok r, c1, tr) => (Except.ok (RVal.selected r), c1, tr)
    | (Except.error e, c1, tr) => (Except.error e, c1, tr)

/-- The inner try-block of `search` (`cli.py` lines 290-303). -/
def innerSearch (crit : String) : Conn → Except PyExc RVal × Conn × List Effect :=
  fun conn =>
    match ensureInbox conn with
    | (Except.error e, c1, tr1) => (Except.error e, c1, tr1)
    | (Except.ok _, c1, tr1) =>
      match c1.searchT crit with
      | (Except.ok uids, tr2) =>
        (Except.ok (RVal.searchHits crit uids uids.length), c1, tr1 ++ tr2)
      | (Except.error e, tr2) => (Except.error e, c1, tr1 ++ tr2)

/-- The inner try-block of `fetch` (`cli.py` lines 352-365). -/
def innerFetch (uid : Int) (maxB maxA : Nat) :
    Conn → Except PyExc RVal × Conn × List Effect :=
  fun conn =>
    match ensureInbox conn with
    | (Except.error e, c1, tr1) => (Except.error e, c1, tr1)
    | (Except.ok _, c1, tr1) =>
      match c1.fetchEmailT uid maxB maxA with
      | (Except.ok em, tr2) =>
        let em2 := if optTruthy c1.currentMailbox then
            { em with mailbox := c1.currentMailbox } else em
        (Except.ok (RVal.emailData em2), c1, tr1 ++ tr2)
      | (Except.error e, tr2) => (Except.error e, c1, tr1 ++ tr2)

/-- The inner try-block of `mark-read` (`cli.py` lines 416-429). -/
def innerMarkRead (ids : List String) :
    Conn → Except PyExc RVal × Conn × List Effect :=
  fun conn =>
    match ensureInbox conn with
    | (Except.error e, c1, tr1) => (Except.error e, c1, tr1)
    | (Except.ok _, c1, tr1) =>
      match parseIdsE ids with
      | Except.error e => (Except.error e, c1, tr1)
      | Except.ok uids =>
        match c1.markReadT uids with
        | (Except.ok _, tr2) =>
          (Except.ok (RVal.markedRead uids true), c1, tr1 ++ tr2)
        | (Except.error e, tr2) => (Except.error e, c1, tr1 ++ tr2)

/-- The inner try-block of `mark-unread` (`cli.py` lines 484-497). -/
def innerMarkUnread (ids : List String) :
    Conn → Except PyExc RVal × Conn × List Effect :=
  fun conn =>
    match ensureInbox conn with
    | (Except.error e, c1, tr1) => (Except.error e, c1, tr1)
    | (Except.ok _, c1, tr1) =>
      match parseIdsE ids with
      | Except.error e => (Except.error e, c1, tr1)
      | Except.ok uids =>
        match c1.markUnreadT uids with
        | (Except.ok _, tr2) =>
          (Except.ok (RVal.markedUnread uids true), c1, tr1 ++ tr2)
        | (Except.error e, tr2) => (Except.error e, c1, tr1 ++ tr2)

/-- The inner try-block of `delete` (`cli.py` lines 552-565). -/
def innerDelete (ids : List String) :
    Conn → Except PyExc RVal × Conn × List Effect :=
  fun conn =>
    match ensureInbox conn with
    | (Except.error e, c1, tr1) => (Except.error e, c1, tr1)
    | (Except.ok _, c1, tr1) =>
      match parseIdsE ids with
      | Except.error e => (Except.error e, c1, tr1)
      | Except.ok uids =>
        match c1.deleteT uids with
        | (Except.ok _, tr2) =>
          (Except.ok (RVal.deletedIds uids true), c1, tr1 ++ tr2)
        | (Except.error e, tr2) => (Except.error e, c1, tr1 ++ tr2)

/-- The inner try-block of `move` (`cli.py` lines 622-636). -/
def innerMove (ids : List String) (target : String) :
    Conn → Except PyExc RVal × Conn × List Effect :=
  fun conn =>
    match ensureInbox conn with
    | (Except.error e, c1, tr1) => (Except.error e, c1, tr1)
    | (Except.ok _, c1, tr1) =>
      match parseIdsE ids with
      | Except.error e => (Except.error e, c1, tr1)
      | Except.ok uids =>
        match c1.moveT uids target with
        | (Except.ok _, tr2) =>
          (Except.ok (RVal.movedIds uids target true), c1, tr1 ++ tr2)
        | (Except.error e, tr2) => (Except.error e, c1, tr1 ++ tr2)

/-- The `list-mailboxes` command (`cli.py` lines 192-231). -/
def cliListMailboxes (o : Oracle) (env : Env) (a : Args) (st : CliState) :
    Resp × CliState × List Effect :=
  withAutoConn o env a st "Failed to list mailboxes: " false true innerList

/-- The `select-mailbox` command (`cli.py` lines 234-271): note the
success path does not tear an auto-connected session down (line 256:
"Don't auto-disconnect for select"). -/
def cliSelectMailbox (o : Oracle) (env : Env) (a : Args) (st : CliState) :
    Resp × CliState × List Effect :=
  if !optTruthy a.mailbox then
    (Resp.failure "Missing required argument: mailbox", st, [])
  else
    withAutoConn o env a st "Failed to select mailbox: " false false
      (innerSelect (a.mailbox.getD ""))

/-- The `search` command (`cli.py` lines 274-324). -/
def cliSearch (o : Oracle) (env : Env) (a : Args) (st : CliState) :
    Resp × CliState × List Effect :=
  if !optTruthy a.criteria then
    (Resp.failure "Missing required argument: criteria", st, [])
  else
    withAutoConn o env a st "Search failed: " false true
      (innerSearch (a.criteria.getD ""))

/-- The environment-variable defaults of the size guardrails
(`imap_client.py` lines 27-28), at their default values. -/
def defaultMaxBodyBytes : Nat := 10 * 1024 * 1024

/-- Default of `MAX_ATTACHMENT_BYTES` (`imap_client.py` line 28). -/
def defaultMaxAttachmentBytes : Nat := 25 * 1024 * 1024

/-- The `fetch` command (`cli.py` lines 327-386): the id is validated
before `_auto_connect` runs; on success the selected mailbox is written
into the record when truthy. -/
def cliFetch (o : Oracle) (env : Env) (a : Args) (st : CliState) :
    Resp × CliState × List Effect :=
  if !optTruthy a.messageId then
    (Resp.failure "Missing required argument: message-id", st, [])
  else
    match pyIntParse (a.messageId.getD "") with
    | none =>
      (Resp.failure
        ("Invalid message ID: " ++ a.messageId.getD "" ++ " (must be integer)"),
       st, [])
    | some uid =>
      withAutoConn o env a st "Failed to fetch email: " false true
        (innerFetch uid (a.maxBodyBytes.getD defaultMaxBodyBytes)
          (a.maxAttachmentBytes.getD defaultMaxAttachmentBytes))

/-- The `mark-read` command (`cli.py` lines 389-454): the sandbox check
precedes auto-connect, but the ids are converted to integers only after
auto-connect and the INBOX auto-select. -/
def cliMarkRead (o : Oracle) (env : Env) (a : Args) (st : CliState) :
    Resp × CliState × List Effect :=
  if !idsTruthy a.messageIds then
    (Resp.failure "Missing required argument: message-ids", st, [])
  else if a.sandbox then
    (Resp.sandboxed (RVal.sandboxMarkRead (a.messageIds.getD []) true true),
     st, [])
  else
    withAutoConn o env a st "Failed to mark as read: " true true
      (innerMarkRead (a.messageIds.getD []))

/-- The `mark-unread` command (`cli.py` lines 457-522). -/
def cliMarkUnread (o : Oracle) (env : Env) (a : Args) (st : CliState) :
    Resp × CliState × List Effect :=
  if !idsTruthy a.messageIds then
    (Resp.failure "Missing required argument: message-ids", st, [])
  else if a.sandbox then
    (Resp.sandboxed (RVal.sandboxMarkUnread (a.messageIds.getD []) true true),
     st, [])
  else
    withAutoConn o env a st "Failed to mark as unread: " true true
      (innerMarkUnread (a.messageIds.getD []))

/-- The `delete` command (`cli.py` lines 525-590): a falsy `message_ids`
is rejected first; then `sandbox=true` returns the sandbox response
before any connection is made. -/
def cliDelete (o : Oracle) (env : Env) (a : Args) (st : CliState) :
    Resp × CliState × List Effect :=
  if !idsTruthy a.messageIds then
    (Resp.failure "Missing required argument: message-ids", st, [])
  else if a.sandbox then
    (Resp.sandboxed (RVal.sandboxDelete (a.messageIds.getD []) true true),
     st, [])
  else
    withAutoConn o env a st "Failed to delete: " true true
      (innerDelete (a.messageIds.getD []))

/-- The `move` command (`cli.py` lines 593-661). -/
def cliMove (o : Oracle) (env : Env) (a : Args) (st : CliState) :
    Resp × CliState × List Effect :=
  if !idsTruthy a.messageIds || !optTruthy a.targetMailbox then
    (Resp.failure "Missing required arguments: message-ids and target-mailbox",
     st, [])
  else if a.sandbox then
    (Resp.sandboxed
      (RVal.sandboxMove (a.messageIds.getD []) (a.targetMailbox.getD "")
        true true), st, [])
  else
    withAutoConn o env a st "Failed to move: " true true
      (innerMove (a.messageIds.getD []) (a.targetMailbox.getD ""))

/-- The in-memory plus persisted state of a `ProfileManager`
(`tools/config.py` lines 65-148): the insertion-ordered profile dict, the
default-profile pointer, the document last written to the config file
(`none` when never written by this manager), and a count of file
writes. -/
structure PMState where
  profiles : List (String × Profile)
  defaultProfile : Option String
  savedDoc : Option (List (String × Profile) × Option String)
  saveCount : Nat
deriving DecidableEq

/-- `ProfileManager._save` (lines 93-111): the whole document is rewritten
from the current in-memory state. -/
def pmSave (st : PMState) : PMState :=
  { st with savedDoc := some (st.profiles, st.defaultProfile),
            saveCount := st.saveCount + 1 }

/-- `ProfileManager.remove_profile` (lines 126-134): when the name is
present, delete it, clear the default pointer if it named this profile,
save, and return `True`; otherwise return `False` without touching
anything. -/
def pmRemoveProfile (name : String) (st : PMState) : Bool × PMState :=
  if (st.profiles.map Prod.fst).contains name then
    (true, pmSave
      { st with
        profiles := st.profiles.filter (fun kv => kv.1 != name),
        defaultProfile :=
          if st.defaultProfile = some name then none else st.defaultProfile })
  else (false, st)

/-- A connection wrapping a given live client, as obtained right after a
successful connect. -/
def connWith (cl : Client) : Conn := ⟨some cl, none, none, none⟩

/-- A demonstration server on which every operation succeeds. -/
def demoServer : Server :=
  { foldersR := Except.ok [⟨["\\HasNoChildren"], "/", "INBOX"⟩]
    selectR := fun _ => Except.ok ⟨1, none, none, none⟩
    searchR := fun _ => Except.ok [1]
    fetchR := fun _ => Except.ok none
    flagR := Except.ok ()
    expungeR := Except.ok ()
    copyR := Except.ok ()
    appendR := Except.ok none }

/-- A demonstration server whose `select_folder` raises. -/
def demoServerSelFail : Server :=
  { demoServer with selectR := fun _ => Except.error "SELECT failed" }

/-- A connect oracle that succeeds with `demoServer`. -/
def demoOracle : Oracle := ⟨Except.ok demoServer⟩

/-- A connect oracle that succeeds but whose selects fail. -/
def demoOracleSelFail : Oracle := ⟨Except.ok demoServerSelFail⟩

/-- An environment with no profiles and no credential variables. -/
def demoEnv : Env := ⟨fun _ => none, none, none, none⟩

/-- An argument map with no arguments supplied. -/
def emptyArgs : Args :=
  { account := none, server := none, username := none, password := none,
    port := none, useSsl := none, mailbox := none, criteria := none,
    messageId := none, messageIds := none, targetMailbox := none,
    sandbox := false, maxBodyBytes := none, maxAttachmentBytes := none }

/-- Direct credentials sufficient for auto-connect. -/
def credArgs : Args :=
  { emptyArgs with
    server := some "imap.example.com",
    username := some "u@example.com", password := some "pw" }

/-- Arguments for a `select-mailbox` invocation with direct credentials. -/
def argsSelect : Args := { credArgs with mailbox := some "INBOX" }

/-- Arguments for an id-taking command with a non-integer id and direct
credentials. -/
def argsMarkBad : Args := { credArgs with messageIds := some ["abc"] }

/-- Arguments for `fetch` with a non-integer id and direct credentials. -/
def argsFetchBad : Args := { credArgs with messageId := some "xyz" }

/-- A profile used by concrete witnesses. -/
def demoProfile : Profile :=
  ⟨none, none, some "u@example.com", some "pw", 993, 587, true, true⟩

/-- A profile-manager state holding one profile that is also the default. -/
def pmDemo : PMState := ⟨[("acct", demoProfile)], some "acct", none, 0⟩

/-- The message that breaks claim C1: its Subject header is the encoded
word `=?x-unknown-charset?b?Zm9v?=`, for which `decode_header` returns
the chunk `(b"foo", "x-unknown-charset")` and
`bytes.decode("x-unknown-charset", errors="ignore")` raises
`LookupError("unknown encoding: x-unknown-charset")`. -/
def c1FailingMsg : Msg :=
  { headerItems := [("Subject", "=?x-unknown-charset?b?Zm9v?=")]
    fromPair := ⟨"", ""⟩
    toAddrs := []
    ccAddrs := []
    bccAddrs := []
    dateHeader := ""
    dateIso := none
    subjectHeader := "=?x-unknown-charset?b?Zm9v?="
    subjectChunks :=
      [HeaderChunk.bytesChunk (Except.error "unknown encoding: x-unknown-charset")]
    content := MsgContent.single none "" "text/plain" }

/-- C1: the claim says `normalize_email` never raises and that a subject
decode failure only degrades the subject to its default.  The code
violates this: the subject decode at `imap_client.py` lines 329-333 is
not wrapped in `try/except`, so a Subject encoded word declaring an
unregistered charset makes the whole function raise `LookupError`
instead of returning a record with an empty subject. -/
theorem c1_unknown_charset_subject_raises :
    normalizeEmailE c1FailingMsg 1 1000 1000 =
      Except.error (PyExc.lookupError "unknown encoding: x-unknown-charset") := rfl

/-- C5: `find_sent_folder` on a connected session lists the folders and
resolves the Sent folder by the three passes in order (exact candidate
match, case-insensitive candidate match, then any folder containing
"sent" but not "draft"), returning the stated answers on the five
concrete folder lists of the claim. -/
theorem c5_find_sent_folder :
    (∀ cl : Client, (connWith cl).findSentFolderT =
      ((match cl.srv.foldersR with
        | Except.ok fs => Except.ok (findSentIn (fs.map Folder.name))
        | Except.error _ => Except.ok none), [Effect.listOp]))
  ∧ (∀ names, findSentIn names =
      (match sentStageExact names with
       | some s => some s
       | none =>
         match sentStageCaseless names with
         | some s => some s
         | none => sentStageHeuristic names))
  ∧ findSentIn ["INBOX", "Sent"] = some "Sent"
  ∧ findSentIn ["INBOX", "Gesendet"] = some "Gesendet"
  ∧ findSentIn ["INBOX", "Sent Items"] = some "Sent Items"
  ∧ findSentIn ["INBOX", "Sent Drafts"] = none
  ∧ findSentIn ["INBOX"] = none := by
  refine ⟨?_, fun names => rfl, by decide, by decide, by decide, by decide,
    by decide⟩
  intro cl
  cases h : cl.srv.foldersR <;> simp [Conn.findSentFolderT, connWith, h]

/-- C6: every stateful operation invoked on a freshly constructed,
never-connected `IMAPConnection` returns the distinct not-connected
`RuntimeError` without touching the network (the effect trace is empty),
for select, mark-read, mark-unread, delete, move, append,
find-sent-folder, search, fetch and list-mailboxes. -/
theorem c6_not_connected_errors :
    (∀ mb, connNew.selectMailboxT mb = (Except.error notConnectedExc, connNew, []))
  ∧ (∀ uids, connNew.markReadT uids = (Except.error notConnectedExc, []))
  ∧ (∀ uids, connNew.markUnreadT uids = (Except.error notConnectedExc, []))
  ∧ (∀ uids, connNew.deleteT uids = (Except.error notConnectedExc, []))
  ∧ (∀ uids target, connNew.moveT uids target = (Except.error notConnectedExc, []))
  ∧ (∀ mb bs fl, connNew.appendT mb bs fl = (Except.error notConnectedExc, []))
  ∧ connNew.findSentFolderT = (Except.error notConnectedExc, [])
  ∧ (∀ crit, connNew.searchT crit = (Except.error notConnectedExc, []))
  ∧ (∀ uid maxB maxA,
      connNew.fetchEmailT uid maxB maxA = (Except.error notConnectedExc, []))
  ∧ connNew.listMailboxesT = (Except.error notConnectedExc, []) :=
  ⟨fun _ => rfl, fun _ => rfl, fun _ => rfl, fun _ => rfl, fun _ _ => rfl,
   fun _ _ _ => rfl, rfl, fun _ => rfl, fun _ _ _ => rfl, rfl⟩

/-- C8: `search` on a connected session passes exactly the key computed by
the criteria dispatch to the server; the dispatch maps `ALL` and `UNSEEN`
(keyword compared on the upper-cased string), `FROM <addr>` and
`SUBJECT <text>` (argument taken from the original string, whitespace
then surrounding quotes stripped), and sends every other criteria string
as an `ALL` search. -/
theorem c8_search_criteria_dsl :
    (∀ cl : Client, ∀ crit, (connWith cl).searchT crit =
      ((match cl.srv.searchR (parseSearchCriteria crit) with
        | Except.ok uids => Except.ok uids
        | Except.error m => Except.error (PyExc.opError m)),
       [Effect.searchOp (parseSearchCriteria crit)]))
  ∧ (∀ s, pyUpper s = "ALL" → parseSearchCriteria s = ["ALL"])
  ∧ (∀ s, pyUpper s = "UNSEEN" → parseSearchCriteria s = ["UNSEEN"])
  ∧ (∀ s, pyStartsWith (pyUpper s) "FROM " = true →
      parseSearchCriteria s =
        ["FROM", pyStripChars (pyStrip (pyDrop s 5)) quoteChars])
  ∧ (∀ s, pyStartsWith (pyUpper s) "FROM " = false →
      pyStartsWith (pyUpper s) "SUBJECT " = true →
      parseSearchCriteria s =
        ["SUBJECT", pyStripChars (pyStrip (pyDrop s 8)) quoteChars])
  ∧ (∀ s, pyUpper s ≠ "ALL" → pyUpper s ≠ "UNSEEN" →
      pyStartsWith (pyUpper s) "FROM " = false →
      pyStartsWith (pyUpper s) "SUBJECT " = false →
      parseSearchCriteria s = ["ALL"])
  ∧ parseSearchCriteria "from \"alice@example.com\"" = ["FROM", "alice@example.com"]
  ∧ parseSearchCriteria "Subject hello" = ["SUBJECT", "hello"]
  ∧ parseSearchCriteria "SINCE 2020-01-01" = ["ALL"] := by
  refine ⟨?_, ?_, ?_, ?_, ?_, ?_, by decide, by decide, by decide⟩
  · intro cl crit
    cases h : cl.srv.searchR (parseSearchCriteria crit) <;>
      simp [Conn.searchT, connWith, h]
  · intro s h
    simp [parseSearchCriteria, h]
  · intro s h
    by_cases h1 : pyUpper s = "ALL"
    · rw [h1] at h; exact absurd h (by decide)
    · simp [parseSearchCriteria, h1, h]
  · intro s h
    by_cases h1 : pyUpper s = "ALL"
    · rw [h1] at h; exact absurd h (by decide)
    by_cases h2 : pyUpper s = "UNSEEN"
    · rw [h2] at h; exact absurd h (by decide)
    simp [parseSearchCriteria, h1, h2, h]
  · intro s h1 h2
    by_cases h3 : pyUpper s = "ALL"
    · rw [h3] at h2; exact absurd h2 (by decide)
    by_cases h4 : pyUpper s = "UNSEEN"
    · rw [h4] at h2; exact absurd h2 (by decide)
    simp [parseSearchCriteria, h3, h4, h1, h2]
  · intro s h1 h2 h3 h4
    simp [parseSearchCriteria, h1, h2, h3, h4]

/-- C8 witness: the dispatch evaluated on concrete criteria through the
conditional clauses of the theorem. -/
theorem c8_search_criteria_dsl_witness :
    parseSearchCriteria "all" = ["ALL"]
  ∧ parseSearchCriteria "Unseen" = ["UNSEEN"]
  ∧ parseSearchCriteria "FROM bob@example.com" = ["FROM", "bob@example.com"] :=
  ⟨c8_search_criteria_dsl.2.1 "all" (by decide),
   c8_search_criteria_dsl.2.2.1 "Unseen" (by decide),
   c8_search_criteria_dsl.2.2.2.1 "FROM bob@example.com" (by decide)⟩

/-- C7: a `delete` invocation (its required `message-ids` argument being
supplied and nonempty, as the CLI parser guarantees) with `sandbox=true`
returns the `status="sandbox"` response carrying `would_delete: true`,
leaves the global slot untouched, and performs no network effect at all
(no connect, select, flag mutation or expunge); and with `sandbox=true`
the effect trace is empty even when the ids are missing. -/
theorem c7_delete_sandbox :
    (∀ o env a st l, a.messageIds = some l → l ≠ [] → a.sandbox = true →
      cliDelete o env a st =
        (Resp.sandboxed (RVal.sandboxDelete l true true), st, []))
  ∧ (∀ o env a st, a.sandbox = true → (cliDelete o env a st).2.2 = []) := by
  constructor
  · intro o env a st l h1 h2 h3
    have ht : idsTruthy (some l) = true := by
      cases l with
      | nil => exact absurd rfl h2
      | cons x xs => rfl
    simp [cliDelete, h1, ht, h3]
  · intro o env a st h
    by_cases h1 : idsTruthy a.messageIds
    · simp [cliDelete, h1, h]
    · simp [cliDelete, h1]

/-- C7 witness: the sandbox response at a concrete invocation. -/
theorem c7_delete_sandbox_witness :
    cliDelete demoOracle demoEnv
      { emptyArgs with messageIds := some ["7"], sandbox := true } ⟨none⟩ =
      (Resp.sandboxed (RVal.sandboxDelete ["7"] true true), ⟨none⟩, []) :=
  c7_delete_sandbox.1 demoOracle demoEnv
    { emptyArgs with messageIds := some ["7"], sandbox := true } ⟨none⟩ ["7"]
    rfl (by decide) rfl

/-- C10: `remove_profile` on a name not present returns `False` and leaves
the whole manager state — profile dict, default pointer, persisted
document and write count — unchanged; it returns `True` exactly when the
name is present. -/
theorem c10_remove_profile (st : PMState) (name : String) :
    ((st.profiles.map Prod.fst).contains name = false →
      pmRemoveProfile name st = (false, st))
  ∧ ((st.profiles.map Prod.fst).contains name = true →
      (pmRemoveProfile name st).1 = true) := by
  constructor <;> intro h <;> unfold pmRemoveProfile <;> rw [h] <;> simp

/-- C10 witness: removal of an absent and of a present name on a concrete
manager state. -/
theorem c10_remove_profile_witness :
    pmRemoveProfile "other" pmDemo = (false, pmDemo)
  ∧ (pmRemoveProfile "acct" pmDemo).1 = true :=
  ⟨(c10_remove_profile pmDemo "other").1 (by decide),
   (c10_remove_profile pmDemo "acct").2 (by decide)⟩

/-- Processing an attachment part (attachment disposition or filename,
with a truthy filename whose decode succeeds and a present payload):
a falsy (empty) payload contributes nothing, and otherwise exactly one
metadata entry is appended, with byte count capped at `maxA` and the
truncation flag recording whether the cap applied.  The entry depends on
the payload only through its length. -/
theorem processPartE_attachment_eq (maxB maxA : Nat) (st : BodyAcc)
    (p : MimePart) (f : String) (pl : Bytes)
    (h0 : pyStartsWith p.contentType "multipart/" = false)
    (h1 : optTruthy p.filename = true)
    (h2 : decodeChunksE p.filenameChunks = Except.ok f)
    (h3 : p.payload = some pl) :
    processPartE maxB maxA st p =
      if pl.length = 0 then Except.ok st
      else Except.ok { st with attachments := st.attachments ++
        [⟨f, p.contentType, if pl.length > maxA then maxA else pl.length,
          decide (pl.length > maxA)⟩] } := by
  unfold processPartE
  rw [h3]
  simp only [h0, h1, h2, Bool.or_true, if_true, if_false, Bool.false_eq_true,
    ite_false, ite_true, Bind.bind, Except.bind]
  by_cases hz : pl.length = 0
  · simp [hz]
  · have hnz : (pl.length != 0) = true := by
      simp [bne, hz]
    simp only [hnz, if_true, hz, ite_false]
    by_cases hgt : pl.length > maxA
    · simp [hgt]
    · simp [hgt]

/-- A part that the walk does not treat as an attachment and whose content
type is neither `text/plain` nor `text/html` leaves the accumulator
unchanged. -/
theorem processPartE_inert (maxB maxA : Nat) (st : BodyAcc) (p : MimePart)
    (h1 : pyIn "attachment" p.contentDisposition = false)
    (h2 : optTruthy p.filename = false)
    (h3 : p.contentType ≠ "text/plain")
    (h4 : p.contentType ≠ "text/html") :
    processPartE maxB maxA st p = Except.ok st := by
  unfold processPartE
  by_cases h0 : pyStartsWith p.contentType "multipart/"
  · simp [h0]
  · simp only [h0, Bool.false_eq_true, ite_false, h1, h2, Bool.or_false,
      if_false]
    cases hp : p.payload with
    | none => rfl
    | some pl => simp [h3, h4]

/-- A successful walk step only ever appends to the attachment list. -/
theorem processPartE_mono {maxB maxA : Nat} {st : BodyAcc} {p : MimePart}
    {st' : BodyAcc} (h : processPartE maxB maxA st p = Except.ok st') :
    ∃ l, st'.attachments = st.attachments ++ l := by
  unfold processPartE at h
  split at h
  · cases h; exact ⟨[], by simp⟩
  · split at h
    · split at h
      · cases hd : decodeChunksE p.filenameChunks with
        | error e => rw [hd] at h; simp [Bind.bind, Except.bind] at h
        | ok f =>
          rw [hd] at h
          simp only [Bind.bind, Except.bind] at h
          cases hp : p.payload with
          | none => rw [hp] at h; cases h; exact ⟨[], by simp⟩
          | some pl =>
            rw [hp] at h
            dsimp only at h
            split at h
            · split at h
              · cases h; exact ⟨[⟨f, p.contentType, maxA, true⟩], rfl⟩
              · cases h; exact ⟨[⟨f, p.contentType, pl.length, false⟩], rfl⟩
            · cases h; exact ⟨[], by simp⟩
      · cases h; exact ⟨[], by simp⟩
    · cases hp : p.payload with
      | none => rw [hp] at h; cases h; exact ⟨[], by simp⟩
      | some pl =>
        rw [hp] at h
        dsimp only at h
        split at h
        · split at h
          · cases h; exact ⟨[], by simp⟩
          · split at h
            · cases h; exact ⟨[], by simp⟩
            · cases h; exact ⟨[], by simp⟩
        · cases h; exact ⟨[], by simp⟩

/-- A successful walk only ever appends to the attachment list. -/
theorem foldlM_attachments_mono (maxB maxA : Nat) :
    ∀ (parts : List MimePart) (st acc : BodyAcc),
      parts.foldlM (processPartE maxB maxA) st = Except.ok acc →
      ∃ l, acc.attachments = st.attachments ++ l := by
  intro parts
  induction parts with
  | nil =>
    intro st acc h
    rw [List.foldlM_nil] at h
    cases h
    exact ⟨[], by simp⟩
  | cons p rest ih =>
    intro st acc h
    rw [List.foldlM_cons] at h
    cases hp : processPartE maxB maxA st p with
    | error e => rw [hp] at h; simp [Bind.bind, Except.bind] at h
    | ok st1 =>
      rw [hp] at h
      simp only [Bind.bind, Except.bind] at h
      obtain ⟨l1, hl1⟩ := processPartE_mono hp
      obtain ⟨l2, hl2⟩ := ih st1 acc h
      exact ⟨l1 ++ l2, by rw [hl2, hl1, List.append_assoc]⟩

/-- Removing a walk step that leaves every accumulator unchanged does not
change the walk's outcome. -/
theorem bodyWalkE_skip (maxB maxA : Nat) (pre post : List MimePart)
    (p : MimePart)
    (hstep : ∀ st, processPartE maxB maxA st p = Except.ok st) :
    bodyWalkE maxB maxA (pre ++ p :: post) =
      bodyWalkE maxB maxA (pre ++ post) := by
  unfold bodyWalkE
  rw [List.foldlM_append, List.foldlM_append]
  cases h : pre.foldlM (processPartE maxB maxA) ⟨"", "", []⟩ with
  | error e => simp [Bind.bind, Except.bind, h]
  | ok st1 =>
    simp only [h, Bind.bind, Except.bind]
    rw [List.foldlM_cons, hstep st1]
    simp [Bind.bind, Except.bind]

/-- C4: an attachment part whose decoded payload exceeds
`maxAttachmentBytes` produces exactly the metadata entry with
`size = maxAttachmentBytes` and `truncated = true` (first conjunct, on
the walk step; third conjunct, membership in the final record of any
successful normalization); and the entry recorded for an attachment part
never depends on the payload bytes themselves, only on their count
(second conjunct). -/
theorem c4_attachment_truncation :
    (∀ maxB maxA st (p : MimePart) f pl,
      pyStartsWith p.contentType "multipart/" = false →
      optTruthy p.filename = true →
      decodeChunksE p.filenameChunks = Except.ok f →
      p.payload = some pl →
      pl.length > maxA →
      processPartE maxB maxA st p =
        Except.ok { st with attachments := st.attachments ++
          [⟨f, p.contentType, maxA, true⟩] })
  ∧ (∀ maxB maxA st (p : MimePart) f pl pl',
      pyStartsWith p.contentType "multipart/" = false →
      optTruthy p.filename = true →
      decodeChunksE p.filenameChunks = Except.ok f →
      p.payload = some pl →
      pl'.length = pl.length →
      processPartE maxB maxA st { p with payload := some pl' } =
        processPartE maxB maxA st p)
  ∧ (∀ (msg : Msg) uid maxB maxA r pre post (p : MimePart) f pl,
      msg.content = MsgContent.multi (pre ++ p :: post) →
      pyStartsWith p.contentType "multipart/" = false →
      optTruthy p.filename = true →
      decodeChunksE p.filenameChunks = Except.ok f →
      p.payload = some pl →
      pl.length > maxA →
      normalizeEmailE msg uid maxB maxA = Except.ok r →
      (⟨f, p.contentType, maxA, true⟩ : AttachmentMeta) ∈
        r.body.attachments) := by
  refine ⟨?_, ?_, ?_⟩
  · intro maxB maxA st p f pl h0 h1 h2 h3 hgt
    have heq := processPartE_attachment_eq maxB maxA st p f pl h0 h1 h2 h3
    rw [if_neg (by omega : ¬ pl.length = 0), if_pos hgt,
      decide_eq_true hgt] at heq
    exact heq
  · intro maxB maxA st p f pl pl' h0 h1 h2 h3 hlen
    have ha := processPartE_attachment_eq maxB maxA st p f pl h0 h1 h2 h3
    have hb := processPartE_attachment_eq maxB maxA st
      { p with payload := some pl' } f pl' h0 h1 h2 rfl
    rw [hlen] at hb
    rw [hb, ha]
  · intro msg uid maxB maxA r pre post p f pl hc h0 h1 h2 h3 hgt hrun
    unfold normalizeEmailE at hrun
    rw [hc] at hrun
    cases hs : (if msg.subjectHeader != "" then decodeChunksE msg.subjectChunks
        else Except.ok "") with
    | error e => rw [hs] at hrun; simp at hrun
    | ok subj =>
      rw [hs] at hrun
      dsimp only at hrun
      cases hb : bodyWalkE maxB maxA (pre ++ p :: post) with
      | error e => rw [hb] at hrun; simp at hrun
      | ok acc =>
        rw [hb] at hrun
        dsimp only at hrun
        have hr : r.body.attachments = acc.attachments := by
          injection hrun with h
          rw [← h]
        unfold bodyWalkE at hb
        rw [List.foldlM_append] at hb
        cases hpre : pre.foldlM (processPartE maxB maxA) ⟨"", "", []⟩ with
        | error e => rw [hpre] at hb; simp [Bind.bind, Except.bind] at hb
        | ok st1 =>
          rw [hpre] at hb
          simp only [Bind.bind, Except.bind] at hb
          rw [List.foldlM_cons] at hb
          have hstep := processPartE_attachment_eq maxB maxA st1 p f pl h0 h1 h2 h3
          rw [if_neg (by omega : ¬ pl.length = 0), if_pos hgt,
            decide_eq_true hgt] at hstep
          rw [hstep] at hb
          simp only [Bind.bind, Except.bind] at hb
          obtain ⟨l2, hl2⟩ := foldlM_attachments_mono maxB maxA post _ acc hb
          rw [hr, hl2]
          simp

/-- C4 witness: a concrete oversized attachment part inside a concrete
multipart message. -/
theorem c4_attachment_truncation_witness :
    processPartE 100 3
      ⟨"", "", []⟩
      ⟨"application/pdf", "attachment; filename=\"r.pdf\"", some "r.pdf",
        [HeaderChunk.strChunk "r.pdf"], some [1, 2, 3, 4, 5], ""⟩ =
      Except.ok ⟨"", "", [⟨"r.pdf", "application/pdf", 3, true⟩]⟩ :=
  c4_attachment_truncation.1 100 3 ⟨"", "", []⟩
    ⟨"application/pdf", "attachment; filename=\"r.pdf\"", some "r.pdf",
      [HeaderChunk.strChunk "r.pdf"], some [1, 2, 3, 4, 5], ""⟩
    "r.pdf" [1, 2, 3, 4, 5] (by decide) (by decide) rfl rfl (by decide)

/-- C9: a leaf part with no attachment disposition, no filename and a
content type other than `text/plain` and `text/html` leaves the walk
accumulator unchanged (first conjunct), and the whole normalized record
is the same as if the part were absent from the message (second
conjunct). -/
theorem c9_inert_leaf_parts :
    (∀ maxB maxA st (p : MimePart),
      pyIn "attachment" p.contentDisposition = false →
      optTruthy p.filename = false →
      p.contentType ≠ "text/plain" →
      p.contentType ≠ "text/html" →
      processPartE maxB maxA st p = Except.ok st)
  ∧ (∀ (msg : Msg) uid maxB maxA pre post (p : MimePart),
      msg.content = MsgContent.multi (pre ++ p :: post) →
      pyIn "attachment" p.contentDisposition = false →
      optTruthy p.filename = false →
      p.contentType ≠ "text/plain" →
      p.contentType ≠ "text/html" →
      normalizeEmailE msg uid maxB maxA =
        normalizeEmailE { msg with content := MsgContent.multi (pre ++ post) }
          uid maxB maxA) := by
  constructor
  · exact fun maxB maxA st p h1 h2 h3 h4 =>
      processPartE_inert maxB maxA st p h1 h2 h3 h4
  · intro msg uid maxB maxA pre post p hc h1 h2 h3 h4
    have hw := bodyWalkE_skip maxB maxA pre post p
      (fun st => processPartE_inert maxB maxA st p h1 h2 h3 h4)
    unfold normalizeEmailE
    rw [hc]
    dsimp only
    rw [hw]

/-- C9 witness: dropping a concrete `image/png` inline leaf part does not
change the normalized record. -/
theorem c9_inert_leaf_parts_witness :
    normalizeEmailE
      { headerItems := [], fromPair := ⟨"", ""⟩, toAddrs := [], ccAddrs := [],
        bccAddrs := [], dateHeader := "", dateIso := none, subjectHeader := "",
        subjectChunks := [],
        content := MsgContent.multi
          [⟨"image/png", "inline", none, [], some [9, 9], "xx"⟩] } 1 10 10 =
    normalizeEmailE
      { headerItems := [], fromPair := ⟨"", ""⟩, toAddrs := [], ccAddrs := [],
        bccAddrs := [], dateHeader := "", dateIso := none, subjectHeader := "",
        subjectChunks := [], content := MsgContent.multi [] } 1 10 10 :=
  c9_inert_leaf_parts.2
    { headerItems := [], fromPair := ⟨"", ""⟩, toAddrs := [], ccAddrs := [],
      bccAddrs := [], dateHeader := "", dateIso := none, subjectHeader := "",
      subjectChunks := [],
      content := MsgContent.multi
        [⟨"image/png", "inline", none, [], some [9, 9], "xx"⟩] } 1 10 10
    [] [] ⟨"image/png", "inline", none, [], some [9, 9], "xx"⟩ rfl
    (by decide) (by decide) (by decide) (by decide)

/-- `select_mailbox` never changes the `client` field. -/
theorem selectT_client (c : Conn) (mb : String) :
    ((c.selectMailboxT mb).2.1).client = c.client := by
  unfold Conn.selectMailboxT
  cases hc : c.client with
  | none => simp [hc]
  | some cl => cases hs : cl.srv.selectR mb <;> simp [hs, hc]

/-- The INBOX auto-select never changes the `client` field. -/
theorem ensureInbox_client (c : Conn) : ((ensureInbox c).2.1).client = c.client := by
  unfold ensureInbox
  by_cases h : optTruthy c.currentMailbox
  · simp [h]
  · simp only [h, Bool.false_eq_true, ite_false]
    have hsel := selectT_client c "INBOX"
    cases hs : c.selectMailboxT "INBOX" with
    | mk res pr =>
      obtain ⟨c1, tr⟩ := pr
      rw [hs] at hsel
      cases res <;> simpa using hsel

/-- The `list-mailboxes` inner block returns the connection it was given. -/
theorem innerList_client (c : Conn) : ((innerList c).2.1).client = c.client := by
  unfold innerList
  cases h : c.listMailboxesT with
  | mk res tr => cases res <;> rfl

/-- The `search` inner block preserves the `client` field. -/
theorem innerSearch_client (crit : String) (c : Conn) :
    ((innerSearch crit c).2.1).client = c.client := by
  unfold innerSearch
  have hin := ensureInbox_client c
  cases he : ensureInbox c with
  | mk res pr =>
    obtain ⟨c1, tr1⟩ := pr
    rw [he] at hin
    have hc1 : c1.client = c.client := by simpa using hin
    cases res with
    | error e => simpa using hc1
    | ok u =>
      dsimp only
      cases hs : c1.searchT crit with
      | mk res2 tr2 => cases res2 <;> simpa using hc1

/-- The `fetch` inner block preserves the `client` field. -/
theorem innerFetch_client (uid : Int) (maxB maxA : Nat) (c : Conn) :
    ((innerFetch uid maxB maxA c).2.1).client = c.client := by
  unfold innerFetch
  have hin := ensureInbox_client c
  cases he : ensureInbox c with
  | mk res pr =>
    obtain ⟨c1, tr1⟩ := pr
    rw [he] at hin
    have hc1 : c1.client = c.client := by simpa using hin
    cases res with
    | error e => simpa using hc1
    | ok u =>
      dsimp only
      cases hs : c1.fetchEmailT uid maxB maxA with
      | mk res2 tr2 => cases res2 <;> simpa using hc1

/-- The `mark-read` inner block preserves the `client` field. -/
theorem innerMarkRead_client (ids : List String) (c : Conn) :
    ((innerMarkRead ids c).2.1).client = c.client := by
  unfold innerMarkRead
  have hin := ensureInbox_client c
  cases he : ensureInbox c with
  | mk res pr =>
    obtain ⟨c1, tr1⟩ := pr
    rw [he] at hin
    have hc1 : c1.client = c.client := by simpa using hin
    cases res with
    | error e => simpa using hc1
    | ok u =>
      dsimp only
      cases hp : parseIdsE ids with
      | error e => simpa using hc1
      | ok uids =>
        dsimp only
        cases hm : c1.markReadT uids with
        | mk res2 tr2 => cases res2 <;> simpa using hc1

/-- The `mark-unread` inner block preserves the `client` field. -/
theorem innerMarkUnread_client (ids : List String) (c : Conn) :
    ((innerMarkUnread ids c).2.1).client = c.client := by
  unfold innerMarkUnread
  have hin := ensureInbox_client c
  cases he : ensureInbox c with
  | mk res pr =>
    obtain ⟨c1, tr1⟩ := pr
    rw [he] at hin
    have hc1 : c1.client = c.client := by simpa using hin
    cases res with
    | error e => simpa using hc1
    | ok u =>
      dsimp only
      cases hp : parseIdsE ids with
      | error e => simpa using hc1
      | ok uids =>
        dsimp only
        cases hm : c1.markUnreadT uids with
        | mk res2 tr2 => cases res2 <;> simpa using hc1

/-- The `delete` inner block preserves the `client` field. -/
theorem innerDelete_client (ids : List String) (c : Conn) :
    ((innerDelete ids c).2.1).client = c.client := by
  unfold innerDelete
  have hin := ensureInbox_client c
  cases he : ensureInbox c with
  | mk res pr =>
    obtain ⟨c1, tr1⟩ := pr
    rw [he] at hin
    have hc1 : c1.client = c.client := by simpa using hin
    cases res with
    | error e => simpa using hc1
    | ok u =>
      dsimp only
      cases hp : parseIdsE ids with
      | error e => simpa using hc1
      | ok uids =>
        dsimp only
        cases hm : c1.deleteT uids with
        | mk res2 tr2 => cases res2 <;> simpa using hc1

/-- The `move` inner block preserves the `client` field. -/
theorem innerMove_client (ids : List String) (target : String) (c : Conn) :
    ((innerMove ids target c).2.1).client = c.client := by
  unfold innerMove
  have hin := ensureInbox_client c
  cases he : ensureInbox c with
  | mk res pr =>
    obtain ⟨c1, tr1⟩ := pr
    rw [he] at hin
    have hc1 : c1.client = c.client := by simpa using hin
    cases res with
    | error e => simpa using hc1
    | ok u =>
      dsimp only
      cases hp : parseIdsE ids with
      | error e => simpa using hc1
      | ok uids =>
        dsimp only
        cases hm : c1.moveT uids target with
        | mk res2 tr2 => cases res2 <;> simpa using hc1

/-- With an empty global slot, `_auto_connect` either resolves no usable
credentials (no effect, slot stays empty), fails to connect (one connect
attempt, slot stays empty, `RuntimeError`), or connects (one connect
attempt, the new connection stored in the slot). -/
theorem autoConnectT_none (o : Oracle) (env : Env) (a : Args) :
    autoConnectT o env a ⟨none⟩ = (Except.ok (none, false), ⟨none⟩, [])
  ∨ (∃ m, autoConnectT o env a ⟨none⟩ =
      (Except.error (PyExc.runtimeError ("Auto-connect failed: " ++ m)),
       ⟨none⟩, [Effect.connect]) ∧ o.connectR = Except.error m)
  ∨ (∃ srv sv un,
      autoConnectT o env a ⟨none⟩ =
        (Except.ok (some ⟨some ⟨srv⟩, sv, un, none⟩, true),
         ⟨some ⟨some ⟨srv⟩, sv, un, none⟩⟩, [Effect.connect])
      ∧ o.connectR = Except.ok srv) := by
  unfold autoConnectT
  dsimp only
  cases hr : resolveCreds env a with
  | earlyNone => exact Or.inl rfl
  | vals sv un pw port ssl =>
    dsimp only
    by_cases ht : (optTruthy sv && optTruthy un && optTruthy pw) = true
    · rw [if_pos ht]
      cases hcr : o.connectR with
      | ok srv => exact Or.inr (Or.inr ⟨srv, sv, un, rfl, rfl⟩)
      | error m => exact Or.inr (Or.inl ⟨m, rfl, rfl⟩)
    · rw [if_neg ht]
      exact Or.inl rfl

/-- Any auto-connect command with guaranteed teardown
(`teardownOnSuccess = true`), run with an empty global slot, leaves the
slot empty; and when the connect oracle succeeds, either no network
effect happened at all or a logout was issued. -/
theorem wacClears (o : Oracle) (env : Env) (a : Args) (pfx : String)
    (hv : Bool) (inner : Conn → Except PyExc RVal × Conn × List Effect)
    (hcl : ∀ c, ((inner c).2.1).client = c.client) :
    (withAutoConn o env a ⟨none⟩ pfx hv true inner).2.1.slot = none ∧
    (∀ srv, o.connectR = Except.ok srv →
      (withAutoConn o env a ⟨none⟩ pfx hv true inner).2.2 = [] ∨
      Effect.logout ∈ (withAutoConn o env a ⟨none⟩ pfx hv true inner).2.2) := by
  rcases autoConnectT_none o env a with h | ⟨m, h, hcr⟩ | ⟨srv, sv, un, h, hcr⟩
  · constructor
    · unfold withAutoConn
      rw [h]
    · intro s hs
      left
      unfold withAutoConn
      rw [h]
  · constructor
    · unfold withAutoConn
      rw [h]
    · intro s hs
      rw [hcr] at hs
      exact absurd hs (by simp)
  · have hc2 := hcl ⟨some ⟨srv⟩, sv, un, none⟩
    cases hi : inner ⟨some ⟨srv⟩, sv, un, none⟩ with
    | mk res pr =>
      obtain ⟨conn2, tr2⟩ := pr
      rw [hi] at hc2
      have hcc : conn2.client = some ⟨srv⟩ := by simpa using hc2
      have hd : conn2.disconnectT = (⟨none, none, none, none⟩, [Effect.logout]) := by
        unfold Conn.disconnectT
        rw [hcc]
      cases res with
      | ok v =>
        constructor
        · unfold withAutoConn
          rw [h]
          dsimp only
          simp [hi]
        · intro s hs
          right
          unfold withAutoConn
          rw [h]
          dsimp only
          simp [hi, hd]
      | error e =>
        constructor
        · unfold withAutoConn
          rw [h]
          dsimp only
          simp [hi]
        · intro s hs
          right
          unfold withAutoConn
          rw [h]
          dsimp only
          simp [hi, hd]

/-- C2 counterexample: an auto-connected `select-mailbox` that succeeds
returns success, leaves the auto-connected session in the global slot
(it is NOT torn down — no logout appears in the trace), contradicting
the claim that every auto-connected command, select-mailbox included,
tears its connection down after the operation. -/
theorem c2_select_keeps_connection :
    (cliSelectMailbox demoOracle demoEnv argsSelect ⟨none⟩).1 =
      Resp.success (RVal.selected ⟨"INBOX", 1, 0, 0, 0⟩)
  ∧ (cliSelectMailbox demoOracle demoEnv argsSelect ⟨none⟩).2.2 =
      [Effect.connect, Effect.selectOp "INBOX"]
  ∧ (cliSelectMailbox demoOracle demoEnv argsSelect ⟨none⟩).2.1.slot.isSome
      = true :=
  ⟨rfl, rfl, rfl⟩

/-- C2 as amended: starting from an empty slot, each of list-mailboxes,
search, fetch, mark-read, mark-unread, delete and move leaves the slot
empty on every path (success or failure), and whenever the connect
oracle would succeed the command's trace is either empty (no connection
was attempted) or contains a logout (the auto-connected session was
disconnected); `select-mailbox` alone keeps the auto-connected session
on success and is torn down only when it returns an error. -/
theorem c2_auto_teardown :
    (∀ o env a, (cliListMailboxes o env a ⟨none⟩).2.1.slot = none ∧
      (∀ srv, o.connectR = Except.ok srv →
        (cliListMailboxes o env a ⟨none⟩).2.2 = [] ∨
        Effect.logout ∈ (cliListMailboxes o env a ⟨none⟩).2.2))
  ∧ (∀ o env a, (cliSearch o env a ⟨none⟩).2.1.slot = none ∧
      (∀ srv, o.connectR = Except.ok srv →
        (cliSearch o env a ⟨none⟩).2.2 = [] ∨
        Effect.logout ∈ (cliSearch o env a ⟨none⟩).2.2))
  ∧ (∀ o env a, (cliFetch o env a ⟨none⟩).2.1.slot = none ∧
      (∀ srv, o.connectR = Except.ok srv →
        (cliFetch o env a ⟨none⟩).2.2 = [] ∨
        Effect.logout ∈ (cliFetch o env a ⟨none⟩).2.2))
  ∧ (∀ o env a, (cliMarkRead o env a ⟨none⟩).2.1.slot = none ∧
      (∀ srv, o.connectR = Except.ok srv →
        (cliMarkRead o env a ⟨none⟩).2.2 = [] ∨
        Effect.logout ∈ (cliMarkRead o env a ⟨none⟩).2.2))
  ∧ (∀ o env a, (cliMarkUnread o env a ⟨none⟩).2.1.slot = none ∧
      (∀ srv, o.connectR = Except.ok srv →
        (cliMarkUnread o env a ⟨none⟩).2.2 = [] ∨
        Effect.logout ∈ (cliMarkUnread o env a ⟨none⟩).2.2))
  ∧ (∀ o env a, (cliDelete o env a ⟨none⟩).2.1.slot = none ∧
      (∀ srv, o.connectR = Except.ok srv →
        (cliDelete o env a ⟨none⟩).2.2 = [] ∨
        Effect.logout ∈ (cliDelete o env a ⟨none⟩).2.2))
  ∧ (∀ o env a, (cliMove o env a ⟨none⟩).2.1.slot = none ∧
      (∀ srv, o.connectR = Except.ok srv →
        (cliMove o env a ⟨none⟩).2.2 = [] ∨
        Effect.logout ∈ (cliMove o env a ⟨none⟩).2.2))
  ∧ (∀ o env a, (cliSelectMailbox o env a ⟨none⟩).1.isErr = true →
      (cliSelectMailbox o env a ⟨none⟩).2.1.slot = none) := by
  refine ⟨?_, ?_, ?_, ?_, ?_, ?_, ?_, ?_⟩
  · intro o env a
    exact wacClears o env a "Failed to list mailboxes: " false innerList
      innerList_client
  · intro o env a
    by_cases hg : optTruthy a.criteria
    · have he : cliSearch o env a ⟨none⟩ =
          withAutoConn o env a ⟨none⟩ "Search failed: " false true
            (innerSearch (a.criteria.getD "")) := by
        simp [cliSearch, hg]
      rw [he]
      exact wacClears o env a _ false _ (innerSearch_client (a.criteria.getD ""))
    · constructor
      · simp [cliSearch, hg]
      · intro srv hs
        left
        simp [cliSearch, hg]
  · intro o env a
    by_cases hg : optTruthy a.messageId
    · cases hp : pyIntParse (a.messageId.getD "") with
      | none =>
        constructor
        · simp [cliFetch, hg, hp]
        · intro srv hs
          left
          simp [cliFetch, hg, hp]
      | some uid =>
        have he : cliFetch o env a ⟨none⟩ =
            withAutoConn o env a ⟨none⟩ "Failed to fetch email: " false true
              (innerFetch uid (a.maxBodyBytes.getD defaultMaxBodyBytes)
                (a.maxAttachmentBytes.getD defaultMaxAttachmentBytes)) := by
          simp [cliFetch, hg, hp]
        rw [he]
        exact wacClears o env a _ false _ (innerFetch_client uid _ _)
    · constructor
      · simp [cliFetch, hg]
      · intro srv hs
        left
        simp [cliFetch, hg]
  · intro o env a
    by_cases hg : idsTruthy a.messageIds
    · by_cases hsb : a.sandbox
      · constructor
        · simp [cliMarkRead, hg, hsb]
        · intro srv hs
          left
          simp [cliMarkRead, hg, hsb]
      · have he : cliMarkRead o env a ⟨none⟩ =
            withAutoConn o env a ⟨none⟩ "Failed to mark as read: " true true
              (innerMarkRead (a.messageIds.getD [])) := by
          simp [cliMarkRead, hg, hsb]
        rw [he]
        exact wacClears o env a _ true _
          (innerMarkRead_client (a.messageIds.getD []))
    · constructor
      · simp [cliMarkRead, hg]
      · intro srv hs
        left
        simp [cliMarkRead, hg]
  · intro o env a
    by_cases hg : idsTruthy a.messageIds
    · by_cases hsb : a.sandbox
      · constructor
        · simp [cliMarkUnread, hg, hsb]
        · intro srv hs
          left
          simp [cliMarkUnread, hg, hsb]
      · have he : cliMarkUnread o env a ⟨none⟩ =
            withAutoConn o env a ⟨none⟩ "Failed to mark as unread: " true true
              (innerMarkUnread (a.messageIds.getD [])) := by
          simp [cliMarkUnread, hg, hsb]
        rw [he]
        exact wacClears o env a _ true _
          (innerMarkUnread_client (a.messageIds.getD []))
    · constructor
      · simp [cliMarkUnread, hg]
      · intro srv hs
        left
        simp [cliMarkUnread, hg]
  · intro o env a
    by_cases hg : idsTruthy a.messageIds
    · by_cases hsb : a.sandbox
      · constructor
        · simp [cliDelete, hg, hsb]
        · intro srv hs
          left
          simp [cliDelete, hg, hsb]
      · have he : cliDelete o env a ⟨none⟩ =
            withAutoConn o env a ⟨none⟩ "Failed to delete: " true true
              (innerDelete (a.messageIds.getD [])) := by
          simp [cliDelete, hg, hsb]
        rw [he]
        exact wacClears o env a _ true _
          (innerDelete_client (a.messageIds.getD []))
    · constructor
      · simp [cliDelete, hg]
      · intro srv hs
        left
        simp [cliDelete, hg]
  · intro o env a
    by_cases hg : (!idsTruthy a.messageIds || !optTruthy a.targetMailbox) = true
    · constructor
      · simp [cliMove, hg]
      · intro srv hs
        left
        simp [cliMove, hg]
    · by_cases hsb : a.sandbox
      · constructor
        · simp [cliMove, hg, hsb]
        · intro srv hs
          left
          simp [cliMove, hg, hsb]
      · have he : cliMove o env a ⟨none⟩ =
            withAutoConn o env a ⟨none⟩ "Failed to move: " true true
              (innerMove (a.messageIds.getD []) (a.targetMailbox.getD "")) := by
          simp [cliMove, hg, hsb]
        rw [he]
        exact wacClears o env a _ true _
          (innerMove_client (a.messageIds.getD []) (a.targetMailbox.getD ""))
  · intro o env a
    by_cases hg : optTruthy a.mailbox
    · have he : cliSelectMailbox o env a ⟨none⟩ =
          withAutoConn o env a ⟨none⟩ "Failed to select mailbox: " false false
            (innerSelect (a.mailbox.getD "")) := by
        simp [cliSelectMailbox, hg]
      rw [he]
      rcases autoConnectT_none o env a with h | ⟨m, h, hcr⟩ | ⟨srv, sv, un, h, hcr⟩
      · intro hisErr
        unfold withAutoConn
        rw [h]
      · intro hisErr
        unfold withAutoConn
        rw [h]
      · cases hi : innerSelect (a.mailbox.getD "") ⟨some ⟨srv⟩, sv, un, none⟩ with
        | mk res pr =>
          obtain ⟨conn2, tr2⟩ := pr
          cases res with
          | ok v =>
            intro hisErr
            exfalso
            unfold withAutoConn at hisErr
            rw [h] at hisErr
            dsimp only at hisErr
            simp [hi, Resp.isErr] at hisErr
          | error e =>
            intro hisErr
            unfold withAutoConn
            rw [h]
            dsimp only
            simp [hi]
    · intro hisErr
      simp [cliSelectMailbox, hg]

/-- C2 witness: an auto-connected `select-mailbox` whose select fails is
torn down and the slot is empty afterwards. -/
theorem c2_auto_teardown_witness :
    (cliSelectMailbox demoOracleSelFail demoEnv argsSelect ⟨none⟩).2.1.slot
      = none :=
  c2_auto_teardown.2.2.2.2.2.2.2 demoOracleSelFail demoEnv argsSelect rfl

/-- The `except` ladder always renders an exception as the error shape. -/
theorem renderExc_isErr (pfx : String) (hv : Bool) (e : PyExc) :
    (renderExc pfx hv e).isErr = true := by
  cases e <;> simp only [renderExc] <;> first | rfl | (split <;> rfl)

/-- `select_mailbox` emits at most a select effect for its mailbox. -/
theorem selectT_trace (c : Conn) (mb : String) :
    ∀ e ∈ (c.selectMailboxT mb).2.2, e = Effect.selectOp mb := by
  unfold Conn.selectMailboxT
  cases hc : c.client with
  | none => simp
  | some cl => cases hs : cl.srv.selectR mb <;> simp [hs]

/-- The INBOX auto-select emits at most a select of INBOX. -/
theorem ensureInbox_trace (c : Conn) :
    ∀ e ∈ (ensureInbox c).2.2, e = Effect.selectOp "INBOX" := by
  unfold ensureInbox
  by_cases h : optTruthy c.currentMailbox
  · simp [h]
  · simp only [h, Bool.false_eq_true, ite_false]
    have htr := selectT_trace c "INBOX"
    cases hs : c.selectMailboxT "INBOX" with
    | mk res pr =>
      obtain ⟨c1, tr⟩ := pr
      rw [hs] at htr
      cases res <;> simpa using htr

/-- `disconnect` emits at most a logout. -/
theorem disconnectT_trace (c : Conn) :
    ∀ e ∈ (c.disconnectT).2, e = Effect.logout := by
  unfold Conn.disconnectT
  cases c.client <;> simp

/-- `_auto_connect` emits at most a connect attempt. -/
theorem autoConnectT_trace (o : Oracle) (env : Env) (a : Args) (st : CliState) :
    ∀ e ∈ (autoConnectT o env a st).2.2, e = Effect.connect := by
  unfold autoConnectT
  cases hs : st.slot with
  | some c => simp
  | none =>
    cases hr : resolveCreds env a with
    | earlyNone => simp
    | vals sv un pw port ssl =>
      dsimp only
      by_cases ht : (optTruthy sv && optTruthy un && optTruthy pw) = true
      · rw [if_pos ht]
        cases hcr : o.connectR <;> simp
      · rw [if_neg ht]
        simp

/-- Every effect of an auto-connect command is either a connect, a
logout, or an effect of its inner block. -/
theorem wacTrace (o : Oracle) (env : Env) (a : Args) (st : CliState)
    (pfx : String) (hv td : Bool)
    (inner : Conn → Except PyExc RVal × Conn × List Effect)
    (Q : Effect → Prop) (hc : Q Effect.connect) (hl : Q Effect.logout)
    (hinner : ∀ c e, e ∈ (inner c).2.2 → Q e) :
    ∀ e ∈ (withAutoConn o env a st pfx hv td inner).2.2, Q e := by
  have hatr := autoConnectT_trace o env a st
  cases ha : autoConnectT o env a st with
  | mk res pr =>
    obtain ⟨st1, tr1⟩ := pr
    rw [ha] at hatr
    have htr1 : ∀ e ∈ tr1, Q e := by
      intro e he
      rw [hatr e (by simpa using he)]
      exact hc
    unfold withAutoConn
    rw [ha]
    cases res with
    | error e => simpa using htr1
    | ok pair =>
      obtain ⟨oc, auto⟩ := pair
      cases oc with
      | none => simpa using htr1
      | some conn =>
        dsimp only
        have hit := hinner conn
        cases hi : inner conn with
        | mk res2 pr2 =>
          obtain ⟨conn2, tr2⟩ := pr2
          rw [hi] at hit
          have htr2 : ∀ e ∈ tr2, Q e := by
            intro e he
            exact hit e (by simpa using he)
          have htrd : ∀ e ∈ (conn2.disconnectT).2, Q e := by
            intro e he
            rw [disconnectT_trace conn2 e he]
            exact hl
          cases res2 with
          | ok v =>
            by_cases haut : (auto && td) = true
            · simp only [haut, if_true]
              intro e he
              rcases List.mem_append.mp he with he1 | he2
              · rcases List.mem_append.mp he1 with he3 | he4
                · exact htr1 e he3
                · exact htr2 e he4
              · exact htrd e he2
            · simp only [haut, Bool.false_eq_true, if_false, ite_false]
              intro e he
              rcases List.mem_append.mp he with he1 | he2
              · exact htr1 e he1
              · exact htr2 e he2
          | error e2 =>
            by_cases haut : auto = true
            · simp only [haut, if_true]
              intro e he
              rcases List.mem_append.mp he with he1 | he2
              · rcases List.mem_append.mp he1 with he3 | he4
                · exact htr1 e he3
                · exact htr2 e he4
              · exact htrd e he2
            · simp only [haut, Bool.false_eq_true, if_false, ite_false]
              intro e he
              rcases List.mem_append.mp he with he1 | he2
              · exact htr1 e he1
              · exact htr2 e he2

/-- When the inner block always raises, the command returns the error
shape. -/
theorem wacIsErr (o : Oracle) (env : Env) (a : Args) (st : CliState)
    (pfx : String) (hv td : Bool)
    (inner : Conn → Except PyExc RVal × Conn × List Effect)
    (hinner : ∀ c, ∃ e, (inner c).1 = Except.error e) :
    (withAutoConn o env a st pfx hv td inner).1.isErr = true := by
  cases ha : autoConnectT o env a st with
  | mk res pr =>
    obtain ⟨st1, tr1⟩ := pr
    unfold withAutoConn
    rw [ha]
    cases res with
    | error e => exact renderExc_isErr pfx hv e
    | ok pair =>
      obtain ⟨oc, auto⟩ := pair
      cases oc with
      | none => rfl
      | some conn =>
        dsimp only
        obtain ⟨e, he⟩ := hinner conn
        cases hi : inner conn with
        | mk res2 pr2 =>
          obtain ⟨conn2, tr2⟩ := pr2
          rw [hi] at he
          cases res2 with
          | ok v => exact absurd he (by simp)
          | error e2 =>
            by_cases haut : auto = true
            · simp only [haut, if_true]
              exact renderExc_isErr pfx hv e2
            · simp only [haut, Bool.false_eq_true, if_false, ite_false]
              exact renderExc_isErr pfx hv e2

/-- A list with an unparseable id makes the conversion loop raise
`ValueError`. -/
theorem parseIdsE_err_of_bad {l : List String}
    (hbad : ∃ x ∈ l, pyIntParse x = none) :
    ∃ m, parseIdsE l = Except.error (PyExc.valueError m) := by
  induction l with
  | nil =>
    rcases hbad with ⟨x, hx, _⟩
    cases hx
  | cons y ys ih =>
    rcases hbad with ⟨x, hx, hpx⟩
    rcases List.mem_cons.mp hx with rfl | hmem
    · exact ⟨_, by unfold parseIdsE; rw [hpx]⟩
    · cases hpy : pyIntParse y with
      | none => exact ⟨_, by unfold parseIdsE; rw [hpy]⟩
      | some n =>
        obtain ⟨m, hm⟩ := ih ⟨x, hmem, hpx⟩
        refine ⟨m, ?_⟩
        unfold parseIdsE
        rw [hpy, hm]

/-- With an unparseable id in the list, the `mark-read` inner block always
raises and its only possible effect is the INBOX auto-select. -/
theorem innerMarkRead_bad (ids : List String) (c : Conn)
    (hbad : ∃ m, parseIdsE ids = Except.error (PyExc.valueError m)) :
    (∃ e, (innerMarkRead ids c).1 = Except.error e) ∧
    ∀ e ∈ (innerMarkRead ids c).2.2, e = Effect.selectOp "INBOX" := by
  obtain ⟨m, hm⟩ := hbad
  have htr := ensureInbox_trace c
  unfold innerMarkRead
  cases he : ensureInbox c with
  | mk res pr =>
    obtain ⟨c1, tr1⟩ := pr
    rw [he] at htr
    have htr1 : ∀ e ∈ tr1, e = Effect.selectOp "INBOX" := by
      intro e hmem
      exact htr e (by simpa using hmem)
    cases res with
    | error e => exact ⟨⟨e, rfl⟩, by simpa using htr1⟩
    | ok u =>
      dsimp only
      rw [hm]
      exact ⟨⟨PyExc.valueError m, rfl⟩, by simpa using htr1⟩

/-- With an unparseable id in the list, the `mark-unread` inner block
always raises and its only possible effect is the INBOX auto-select. -/
theorem innerMarkUnread_bad (ids : List String) (c : Conn)
    (hbad : ∃ m, parseIdsE ids = Except.error (PyExc.valueError m)) :
    (∃ e, (innerMarkUnread ids c).1 = Except.error e) ∧
    ∀ e ∈ (innerMarkUnread ids c).2.2, e = Effect.selectOp "INBOX" := by
  obtain ⟨m, hm⟩ := hbad
  have htr := ensureInbox_trace c
  unfold innerMarkUnread
  cases he : ensureInbox c with
  | mk res pr =>
    obtain ⟨c1, tr1⟩ := pr
    rw [he] at htr
    have htr1 : ∀ e ∈ tr1, e = Effect.selectOp "INBOX" := by
      intro e hmem
      exact htr e (by simpa using hmem)
    cases res with
    | error e => exact ⟨⟨e, rfl⟩, by simpa using htr1⟩
    | ok u =>
      dsimp only
      rw [hm]
      exact ⟨⟨PyExc.valueError m, rfl⟩, by simpa using htr1⟩

/-- With an unparseable id in the list, the `delete` inner block always
raises and its only possible effect is the INBOX auto-select: in
particular no flag mutation and no expunge happens. -/
theorem innerDelete_bad (ids : List String) (c : Conn)
    (hbad : ∃ m, parseIdsE ids = Except.error (PyExc.valueError m)) :
    (∃ e, (innerDelete ids c).1 = Except.error e) ∧
    ∀ e ∈ (innerDelete ids c).2.2, e = Effect.selectOp "INBOX" := by
  obtain ⟨m, hm⟩ := hbad
  have htr := ensureInbox_trace c
  unfold innerDelete
  cases he : ensureInbox c with
  | mk res pr =>
    obtain ⟨c1, tr1⟩ := pr
    rw [he] at htr
    have htr1 : ∀ e ∈ tr1, e = Effect.selectOp "INBOX" := by
      intro e hmem
      exact htr e (by simpa using hmem)
    cases res with
    | error e => exact ⟨⟨e, rfl⟩, by simpa using htr1⟩
    | ok u =>
      dsimp only
      rw [hm]
      exact ⟨⟨PyExc.valueError m, rfl⟩, by simpa using htr1⟩

/-- With an unparseable id in the list, the `move` inner block always
raises and its only possible effect is the INBOX auto-select: no copy,
flag mutation or expunge happens. -/
theorem innerMove_bad (ids : List String) (target : String) (c : Conn)
    (hbad : ∃ m, parseIdsE ids = Except.error (PyExc.valueError m)) :
    (∃ e, (innerMove ids target c).1 = Except.error e) ∧
    ∀ e ∈ (innerMove ids target c).2.2, e = Effect.selectOp "INBOX" := by
  obtain ⟨m, hm⟩ := hbad
  have htr := ensureInbox_trace c
  unfold innerMove
  cases he : ensureInbox c with
  | mk res pr =>
    obtain ⟨c1, tr1⟩ := pr
    rw [he] at htr
    have htr1 : ∀ e ∈ tr1, e = Effect.selectOp "INBOX" := by
      intro e hmem
      exact htr e (by simpa using hmem)
    cases res with
    | error e => exact ⟨⟨e, rfl⟩, by simpa using htr1⟩
    | ok u =>
      dsimp only
      rw [hm]
      exact ⟨⟨PyExc.valueError m, rfl⟩, by simpa using htr1⟩

/-- C3 counterexample: `mark-read` invoked with the non-integer id "abc"
and usable credentials opens a connection and selects INBOX (network
I/O) before the id validation fails — the claim says no connection is
opened and no mailbox selected for any id-taking command. -/
theorem c3_mark_read_connects_before_validation :
    cliMarkRead demoOracle demoEnv argsMarkBad ⟨none⟩ =
      (Resp.failure
        "Invalid message ID: invalid literal for int() with base 10: abc",
       ⟨none⟩,
       [Effect.connect, Effect.selectOp "INBOX", Effect.logout]) := rfl

/-- C3 as amended: `fetch` returns the invalid-id validation error before
any network I/O (state untouched, empty trace); for `mark-read`,
`mark-unread`, `delete` and `move` an unparseable id still makes the
command return an error, but only after auto-connect and the INBOX
auto-select may have performed network I/O — the only possible effects
are connect, select of INBOX and logout, so no flag mutation, copy,
expunge, search or fetch operation is ever invoked. -/
theorem c3_id_validation :
    (∀ o env a st s, a.messageId = some s → s ≠ "" → pyIntParse s = none →
      cliFetch o env a st =
        (Resp.failure ("Invalid message ID: " ++ s ++ " (must be integer)"),
         st, []))
  ∧ (∀ o env a st l, a.messageIds = some l → a.sandbox = false →
      (∃ x ∈ l, pyIntParse x = none) →
      (cliMarkRead o env a st).1.isErr = true ∧
      ∀ e ∈ (cliMarkRead o env a st).2.2,
        e = Effect.connect ∨ e = Effect.selectOp "INBOX" ∨ e = Effect.logout)
  ∧ (∀ o env a st l, a.messageIds = some l → a.sandbox = false →
      (∃ x ∈ l, pyIntParse x = none) →
      (cliMarkUnread o env a st).1.isErr = true ∧
      ∀ e ∈ (cliMarkUnread o env a st).2.2,
        e = Effect.connect ∨ e = Effect.selectOp "INBOX" ∨ e = Effect.logout)
  ∧ (∀ o env a st l, a.messageIds = some l → a.sandbox = false →
      (∃ x ∈ l, pyIntParse x = none) →
      (cliDelete o env a st).1.isErr = true ∧
      ∀ e ∈ (cliDelete o env a st).2.2,
        e = Effect.connect ∨ e = Effect.selectOp "INBOX" ∨ e = Effect.logout)
  ∧ (∀ o env a st l, a.messageIds = some l → a.sandbox = false →
      optTruthy a.targetMailbox = true →
      (∃ x ∈ l, pyIntParse x = none) →
      (cliMove o env a st).1.isErr = true ∧
      ∀ e ∈ (cliMove o env a st).2.2,
        e = Effect.connect ∨ e = Effect.selectOp "INBOX" ∨ e = Effect.logout) := by
  refine ⟨?_, ?_, ?_, ?_, ?_⟩
  · intro o env a st s hid hne hp
    have ht : optTruthy (some s) = true := by
      simp [optTruthy, hne]
    simp [cliFetch, hid, ht, hp]
  · intro o env a st l hids hsb hbad
    have hne : l ≠ [] := by
      rcases hbad with ⟨x, hx, _⟩
      intro hnil
      rw [hnil] at hx
      cases hx
    have ht : idsTruthy (some l) = true := by
      cases l with
      | nil => exact absurd rfl hne
      | cons y ys => rfl
    have he : cliMarkRead o env a st =
        withAutoConn o env a st "Failed to mark as read: " true true
          (innerMarkRead l) := by
      simp [cliMarkRead, ht, hsb, hids]
    have hb := parseIdsE_err_of_bad hbad
    constructor
    · rw [he]
      exact wacIsErr o env a st _ true true _
        (fun c => (innerMarkRead_bad l c hb).1)
    · rw [he]
      refine wacTrace o env a st _ true true _ _ (Or.inl rfl)
        (Or.inr (Or.inr rfl)) ?_
      intro c e hmem
      exact Or.inr (Or.inl ((innerMarkRead_bad l c hb).2 e hmem))
  · intro o env a st l hids hsb hbad
    have hne : l ≠ [] := by
      rcases hbad with ⟨x, hx, _⟩
      intro hnil
      rw [hnil] at hx
      cases hx
    have ht : idsTruthy (some l) = true := by
      cases l with
      | nil => exact absurd rfl hne
      | cons y ys => rfl
    have he : cliMarkUnread o env a st =
        withAutoConn o env a st "Failed to mark as unread: " true true
          (innerMarkUnread l) := by
      simp [cliMarkUnread, ht, hsb, hids]
    have hb := parseIdsE_err_of_bad hbad
    constructor
    · rw [he]
      exact wacIsErr o env a st _ true true _
        (fun c => (innerMarkUnread_bad l c hb).1)
    · rw [he]
      refine wacTrace o env a st _ true true _ _ (Or.inl rfl)
        (Or.inr (Or.inr rfl)) ?_
      intro c e hmem
      exact Or.inr (Or.inl ((innerMarkUnread_bad l c hb).2 e hmem))
  · intro o env a st l hids hsb hbad
    have hne : l ≠ [] := by
      rcases hbad with ⟨x, hx, _⟩
      intro hnil
      rw [hnil] at hx
      cases hx
    have ht : idsTruthy (some l) = true := by
      cases l with
      | nil => exact absurd rfl hne
      | cons y ys => rfl
    have he : cliDelete o env a st =
        withAutoConn o env a st "Failed to delete: " true true
          (innerDelete l) := by
      simp [cliDelete, ht, hsb, hids]
    have hb := parseIdsE_err_of_bad hbad
    constructor
    · rw [he]
      exact wacIsErr o env a st _ true true _
        (fun c => (innerDelete_bad l c hb).1)
    · rw [he]
      refine wacTrace o env a st _ true true _ _ (Or.inl rfl)
        (Or.inr (Or.inr rfl)) ?_
      intro c e hmem
      exact Or.inr (Or.inl ((innerDelete_bad l c hb).2 e hmem))
  · intro o env a st l hids hsb htm hbad
    have hne : l ≠ [] := by
      rcases hbad with ⟨x, hx, _⟩
      intro hnil
      rw [hnil] at hx
      cases hx
    have ht : idsTruthy (some l) = true := by
      cases l with
      | nil => exact absurd rfl hne
      | cons y ys => rfl
    have he : cliMove o env a st =
        withAutoConn o env a st "Failed to move: " true true
          (innerMove l (a.targetMailbox.getD "")) := by
      simp [cliMove, ht, htm, hsb, hids]
    have hb := parseIdsE_err_of_bad hbad
    constructor
    · rw [he]
      exact wacIsErr o env a st _ true true _
        (fun c => (innerMove_bad l (a.targetMailbox.getD "") c hb).1)
    · rw [he]
      refine wacTrace o env a st _ true true _ _ (Or.inl rfl)
        (Or.inr (Or.inr rfl)) ?_
      intro c e hmem
      exact Or.inr
        (Or.inl ((innerMove_bad l (a.targetMailbox.getD "") c hb).2 e hmem))

/-- C3 witness: `fetch` with the non-integer id "xyz" and usable
credentials returns the validation error with no state change and no
network effect. -/
theorem c3_id_validation_witness :
    cliFetch demoOracle demoEnv argsFetchBad ⟨none⟩ =
      (Resp.failure "Invalid message ID: xyz (must be integer)", ⟨none⟩, []) :=
  c3_id_validation.1 demoOracle demoEnv argsFetchBad ⟨none⟩ "xyz" rfl
    (by decide) (by decide)
